import Mathlib

/-!
Shallow embedding of the prepaid-electricity backend (FastAPI + SQLAlchemy):
`app/models.py`, `app/crud.py`, `app/routers/user.py`, `app/routers/whatsapp.py`,
`app/routers/admin.py`.  Rows are Lean structures, the database is lists of
rows, Python `float` is modelled as `Rat`, and each handler / CRUD function is
a pure state-passing function.  Python truthiness of optional strings and
optional integer ids is modelled explicitly where the source relies on it.
-/

namespace Backend

/-- `models.TransactionStatus` (enum: pending / completed / failed). -/
inductive TransactionStatus where
  | pending
  | completed
  | failed
deriving DecidableEq, Repr

/-- `models.TransactionStatus(status)` on a string value: succeeds exactly on
the three enum values, raises `ValueError` (here: `none`) otherwise. -/
def parseStatus (s : String) : Option TransactionStatus :=
  if s = "pending" then some .pending
  else if s = "completed" then some .completed
  else if s = "failed" then some .failed
  else none

/-- `models.User` row (fields relevant to the transaction engine). -/
structure User where
  id : Nat
  username : String
  unit_balance : Rat
  is_active : Bool
deriving DecidableEq, Repr

/-- `models.DeviceStatus` row (fields relevant to the transaction engine). -/
structure DeviceStatus where
  device_id : String
  user_id : Option Nat
  device_name : Option String
  unit_balance : Rat
  is_primary : Bool
deriving DecidableEq, Repr

/-- `models.ElectricityRate` row. -/
structure ElectricityRate where
  id : Nat
  rate_name : String
  price_per_unit : Rat
  is_active : Bool
  effective_date : Nat
deriving DecidableEq, Repr

/-- `models.Transaction` row. -/
structure Transaction where
  id : Nat
  user_id : Nat
  rate_id : Nat
  amount : Rat
  units_purchased : Rat
  transaction_reference : String
  status : TransactionStatus
  balance_before : Rat
  balance_after : Rat
  device_id : Option String
  payment_method : String
  notes : Option String
  created_at : Nat
  completed_at : Option Nat
deriving DecidableEq, Repr

/-- The relational store: one list of rows per table. -/
structure DB where
  users : List User
  devices : List DeviceStatus
  rates : List ElectricityRate
  transactions : List Transaction
deriving DecidableEq, Repr

/-- Python truthiness of an optional string (`if not device_id:` etc.):
`None` and the empty string are falsy. -/
def truthyStr (o : Option String) : Bool :=
  match o with
  | some s => s != ""
  | none => false

/-- Python truthiness of an optional integer id (`if not db_device.user_id:`):
`None` and `0` are falsy. -/
def truthyUid (o : Option Nat) : Bool :=
  match o with
  | some n => n != 0
  | none => false

/-- `crud.get_user`: `query(User).filter(User.id == user_id).first()`. -/
def get_user (db : DB) (user_id : Nat) : Option User :=
  db.users.find? (fun u => u.id == user_id)

/-- `crud.get_device_by_id`. -/
def get_device_by_id (db : DB) (device_id : String) : Option DeviceStatus :=
  db.devices.find? (fun d => d.device_id == device_id)

/-- `crud.get_user_primary_device`. -/
def get_user_primary_device (db : DB) (user_id : Nat) : Option DeviceStatus :=
  db.devices.find? (fun d => d.user_id == some user_id && d.is_primary)

/-- `crud.get_active_electricity_rate`. -/
def get_active_electricity_rate (db : DB) : Option ElectricityRate :=
  db.rates.find? (fun r => r.is_active)

/-- `crud.get_electricity_rate`. -/
def get_electricity_rate (db : DB) (rate_id : Nat) : Option ElectricityRate :=
  db.rates.find? (fun r => r.id == rate_id)

/-- `crud.get_transaction`. -/
def get_transaction (db : DB) (transaction_id : Nat) : Option Transaction :=
  db.transactions.find? (fun t => t.id == transaction_id)

/-- Autoincrement primary key for a new rate row. -/
def freshRateId (db : DB) : Nat :=
  (db.rates.map (fun r => r.id)).foldl max 0 + 1

/-- Autoincrement primary key for a new transaction row. -/
def next_transaction_id (db : DB) : Nat :=
  (db.transactions.map (fun t => t.id)).foldl max 0 + 1

/-- `f"TR-{datetime.utcnow().strftime(...)}-{user_id}"` with the timestamp
abstracted to a natural number. -/
def transaction_reference_for (now : Nat) (user_id : Nat) : String :=
  "TR-" ++ toString now ++ "-" ++ toString user_id

/-- In-place mutation of the balance of the user row with the given id,
followed by commit. -/
def updateUserBalance (users : List User) (user_id : Nat) (f : Rat → Rat) : List User :=
  users.map (fun u => if u.id == user_id then { u with unit_balance := f u.unit_balance } else u)

/-- In-place mutation of the balance of the device row with the given id. -/
def updateDeviceBalance (devices : List DeviceStatus) (device_id : String) (f : Rat → Rat) :
    List DeviceStatus :=
  devices.map (fun d =>
    if d.device_id == device_id then { d with unit_balance := f d.unit_balance } else d)

/-- Committing a mutated transaction object back into its table row. -/
def replaceTransaction (ts : List Transaction) (t : Transaction) : List Transaction :=
  ts.map (fun x => if x.id == t.id then t else x)

/-- Balance of the user with the given id, if present. -/
def userBalance (db : DB) (user_id : Nat) : Option Rat :=
  (get_user db user_id).map fun u => u.unit_balance

/-- Balance of the device with the given id, if present. -/
def deviceBalance (db : DB) (device_id : String) : Option Rat :=
  (get_device_by_id db device_id).map fun d => d.unit_balance

/-! ## Rate catalog (`crud.create_electricity_rate`, `crud.update_electricity_rate`,
`routers/admin.py activate_electricity_rate`) -/

/-- `schemas.ElectricityRateCreate` after request validation
(`price_per_unit` has `gt=0`; `is_active` defaults to `True`). -/
structure ElectricityRateCreate where
  rate_name : String
  price_per_unit : Rat
  is_active : Bool
  effective_date : Option Nat
deriving DecidableEq, Repr

/-- `schemas.ElectricityRateUpdate`: all fields optional; `none` models a
field absent from the request (`exclude_unset`). -/
structure ElectricityRateUpdate where
  rate_name : Option String
  price_per_unit : Option Rat
  is_active : Option Bool
  effective_date : Option Nat
deriving DecidableEq, Repr

/-- `query(ElectricityRate).filter(is_active == True).update({"is_active": False})`. -/
def deactivateActiveRates (rates : List ElectricityRate) : List ElectricityRate :=
  rates.map (fun r => if r.is_active then { r with is_active := false } else r)

/-- `crud.create_electricity_rate`. -/
def create_electricity_rate (db : DB) (rate : ElectricityRateCreate) (now : Nat) :
    DB × ElectricityRate :=
  let rates0 := if rate.is_active then deactivateActiveRates db.rates else db.rates
  let newRate : ElectricityRate :=
    { id := freshRateId db, rate_name := rate.rate_name,
      price_per_unit := rate.price_per_unit, is_active := rate.is_active,
      effective_date := rate.effective_date.getD now }
  ({ db with rates := rates0 ++ [newRate] }, newRate)

/-- The `setattr` loop of `crud.update_electricity_rate`: apply exactly the
supplied fields. -/
def applyRateUpdate (r : ElectricityRate) (u : ElectricityRateUpdate) : ElectricityRate :=
  let r1 := match u.rate_name with | some n => { r with rate_name := n } | none => r
  let r2 := match u.price_per_unit with | some p => { r1 with price_per_unit := p } | none => r1
  let r3 := match u.is_active with | some b => { r2 with is_active := b } | none => r2
  match u.effective_date with | some d => { r3 with effective_date := d } | none => r3

/-- `query(ElectricityRate).filter(id != rate_id, is_active == True)
.update({"is_active": False})`. -/
def deactivateOtherActiveRates (rates : List ElectricityRate) (rate_id : Nat) :
    List ElectricityRate :=
  rates.map (fun r =>
    if r.id != rate_id && r.is_active then { r with is_active := false } else r)

/-- `query(ElectricityRate).filter(id != rate_id).update({"is_active": False})`. -/
def deactivateAllOtherRates (rates : List ElectricityRate) (rate_id : Nat) :
    List ElectricityRate :=
  rates.map (fun r => if r.id != rate_id then { r with is_active := false } else r)

/-- Committing the mutated rate object back into its table row. -/
def replaceRateById (rates : List ElectricityRate) (rate_id : Nat) (newRate : ElectricityRate) :
    List ElectricityRate :=
  rates.map (fun r => if r.id == rate_id then newRate else r)

/-- `crud.update_electricity_rate`: `update_data.get('is_active', False)` is
true exactly when the request sets `is_active` to `True`. -/
def update_electricity_rate (db : DB) (rate_id : Nat) (u : ElectricityRateUpdate) :
    Option (DB × ElectricityRate) :=
  match get_electricity_rate db rate_id with
  | none => none
  | some db_rate =>
    let rates1 :=
      if u.is_active == some true then deactivateOtherActiveRates db.rates rate_id
      else db.rates
    let newRate := applyRateUpdate db_rate u
    some ({ db with rates := replaceRateById rates1 rate_id newRate }, newRate)

/-- `routers/admin.py activate_electricity_rate`: deactivate every other rate,
then activate the target. -/
def activate_electricity_rate (db : DB) (rate_id : Nat) : Option (DB × ElectricityRate) :=
  match get_electricity_rate db rate_id with
  | none => none
  | some db_rate =>
    let rates1 := deactivateAllOtherRates db.rates rate_id
    let newRate := { db_rate with is_active := true }
    some ({ db with rates := replaceRateById rates1 rate_id newRate }, newRate)

/-- One rate-catalog request. -/
inductive RateOp where
  | create (rate : ElectricityRateCreate) (now : Nat)
  | update (rate_id : Nat) (u : ElectricityRateUpdate)
  | activate (rate_id : Nat)

/-- Effect of a rate-catalog request on the store (a rejected request leaves
the store unchanged). -/
def applyRateOp (db : DB) (op : RateOp) : DB :=
  match op with
  | .create rate now => (create_electricity_rate db rate now).1
  | .update rate_id u =>
    match update_electricity_rate db rate_id u with
    | none => db
    | some p => p.1
  | .activate rate_id =>
    match activate_electricity_rate db rate_id with
    | none => db
    | some p => p.1

/-- Number of active rate plans. -/
def activeRateCount (db : DB) : Nat := db.rates.countP (fun r => r.is_active)

/-- Primary-key uniqueness of the rates table. -/
def rateIdsNodup (db : DB) : Prop := (db.rates.map (fun r => r.id)).Nodup

/-- Rate-catalog data invariant: unique primary keys, at most one active plan. -/
def RateInvariant (db : DB) : Prop := rateIdsNodup db ∧ activeRateCount db ≤ 1

/-! ## Device directory (`crud.create_device`, `crud.assign_device_to_user`,
`crud.make_device_primary`, `crud.generate_unique_meter_id`) -/

/-- `schemas.DeviceCreate` (all fields optional). -/
structure DeviceCreate where
  user_id : Option Nat
  device_name : Option String
  is_online : Option Bool
  unit_balance : Option Rat
  is_primary : Option Bool
deriving DecidableEq, Repr

/-- The retry loop of `crud.generate_unique_meter_id`: `draws k` is the string
of 7 random digits produced by the `k`-th iteration; the loop runs until the
candidate id is unused.  `fuel` bounds the unrolling; `none` models a loop
that has not yet terminated (hence commits nothing). -/
def generate_unique_meter_id_from (db : DB) (draws : Nat → String) :
    Nat → Nat → Option String
  | _, 0 => none
  | k, Nat.succ fuel =>
    let meter_id := "MTR" ++ draws k
    match get_device_by_id db meter_id with
    | none => some meter_id
    | some _ => generate_unique_meter_id_from db draws (k + 1) fuel

/-- `crud.generate_unique_meter_id`. -/
def generate_unique_meter_id (db : DB) (draws : Nat → String) (fuel : Nat) : Option String :=
  generate_unique_meter_id_from db draws 0 fuel

/-- `query(DeviceStatus).filter(user_id == uid, is_primary == True)
.update({"is_primary": False})`. -/
def clearPrimaryForUser (devices : List DeviceStatus) (uid : Option Nat) :
    List DeviceStatus :=
  devices.map (fun d =>
    if d.user_id == uid && d.is_primary then { d with is_primary := false } else d)

/-- Same `.update()` but excluding one device
(`crud.make_device_primary`). -/
def clearPrimaryForUserExcept (devices : List DeviceStatus) (uid : Option Nat)
    (device_id : String) : List DeviceStatus :=
  devices.map (fun d =>
    if d.user_id == uid && d.is_primary && d.device_id != device_id
    then { d with is_primary := false } else d)

/-- Committing a mutated device object back into its table row. -/
def replaceDeviceById (devices : List DeviceStatus) (device_id : String)
    (newDev : DeviceStatus) : List DeviceStatus :=
  devices.map (fun d => if d.device_id == device_id then newDev else d)

/-- `crud.create_device`: generate a fresh id, optionally clear the user's
other primary devices (`if is_primary and device.user_id:` — Python
truthiness), insert the new row. -/
def create_device (db : DB) (device : DeviceCreate) (draws : Nat → String) (fuel : Nat) :
    Option (DB × DeviceStatus) :=
  match generate_unique_meter_id db draws fuel with
  | none => none
  | some device_id =>
    let is_primary := device.is_primary.getD false
    let devices0 :=
      if is_primary && truthyUid device.user_id then
        clearPrimaryForUser db.devices device.user_id
      else db.devices
    let db_device : DeviceStatus :=
      { device_id := device_id,
        user_id := device.user_id,
        device_name :=
          some (if truthyStr device.device_name
                then device.device_name.getD ""
                else "Meter " ++ device_id),
        unit_balance := device.unit_balance.getD 0,
        is_primary := is_primary }
    some ({ db with devices := devices0 ++ [db_device] }, db_device)

/-- `crud.assign_device_to_user`. -/
def assign_device_to_user (db : DB) (device_id : String) (user_id : Nat)
    (device_name : Option String) (make_primary : Bool) : Option (DB × DeviceStatus) :=
  match get_device_by_id db device_id with
  | none => none
  | some db_device =>
    let devices0 :=
      if make_primary then clearPrimaryForUser db.devices (some user_id) else db.devices
    let newName : Option String :=
      if truthyStr device_name then device_name
      else if !truthyStr db_device.device_name then some ("Meter " ++ device_id)
      else db_device.device_name
    let newDev :=
      { db_device with user_id := some user_id, is_primary := make_primary,
                       device_name := newName }
    some ({ db with devices := replaceDeviceById devices0 device_id newDev }, newDev)

/-- `crud.make_device_primary`: rejected when the device is unknown or has no
(truthy) owner. -/
def make_device_primary (db : DB) (device_id : String) : Option (DB × DeviceStatus) :=
  match get_device_by_id db device_id with
  | none => none
  | some db_device =>
    if !truthyUid db_device.user_id then none
    else
      let devices0 := clearPrimaryForUserExcept db.devices db_device.user_id device_id
      let newDev := { db_device with is_primary := true }
      some ({ db with devices := replaceDeviceById devices0 device_id newDev }, newDev)

/-- One device-directory request. -/
inductive DeviceOp where
  | create (device : DeviceCreate) (draws : Nat → String) (fuel : Nat)
  | assign (device_id : String) (user_id : Nat) (device_name : Option String)
      (make_primary : Bool)
  | makePrimary (device_id : String)

/-- Effect of a device-directory request on the store (a rejected request
leaves the store unchanged). -/
def applyDeviceOp (db : DB) (op : DeviceOp) : DB :=
  match op with
  | .create device draws fuel =>
    match create_device db device draws fuel with
    | none => db
    | some p => p.1
  | .assign device_id user_id device_name make_primary =>
    match assign_device_to_user db device_id user_id device_name make_primary with
    | none => db
    | some p => p.1
  | .makePrimary device_id =>
    match make_device_primary db device_id with
    | none => db
    | some p => p.1

/-- Number of primary devices owned by user `u`. -/
def primaryCount (devices : List DeviceStatus) (u : Nat) : Nat :=
  devices.countP (fun d => d.user_id == some u && d.is_primary)

/-- Primary-key uniqueness of the device table. -/
def deviceIdsNodup (db : DB) : Prop := (db.devices.map (fun d => d.device_id)).Nodup

/-- Device-directory invariant: unique device ids and, for every real user
(ids are positive — autoincrement), at most one primary device. -/
def DeviceInvariant (db : DB) : Prop :=
  deviceIdsNodup db ∧ ∀ u : Nat, 0 < u → primaryCount db.devices u ≤ 1

/-! ## Transaction engine (`routers/user.py`, `crud.py`, `routers/whatsapp.py`) -/

/-- `schemas.UnitPurchase` (fields as parsed; `units` carries `gt=0`,
checked by `unitPurchaseValid`). -/
structure UnitPurchase where
  units : Rat
  payment_method : String
  device_id : Option String
  notes : Option String
deriving DecidableEq, Repr

/-- `schemas.JsonPurchase`. -/
structure JsonPurchase where
  units : Rat
  device_id : Option String
  notes : Option String
deriving DecidableEq, Repr

/-- Pydantic validation `units: float = Field(..., gt=0)`. -/
def unitPurchaseValid (p : UnitPurchase) : Bool := decide (0 < p.units)

/-- Pydantic validation for `JsonPurchase`. -/
def jsonPurchaseValid (p : JsonPurchase) : Bool := decide (0 < p.units)

/-- Outcome of a request handler: success with the committed store and the
returned transaction, or an HTTP error carrying the store as the handler
leaves it. -/
inductive PResult where
  | ok (db : DB) (t : Transaction)
  | err (db : DB) (code : Nat) (detail : String)
deriving DecidableEq, Repr

/-- The device-resolution block shared by `buy_units`,
`crud.create_json_purchase` and `crud.create_transaction`: without a (truthy)
explicit device use the primary device if any; an explicit device must exist
and belong to the user. -/
def resolve_purchase_device (db : DB) (user_id : Nat) (device_id : Option String) :
    Except Unit (Option String) :=
  if !truthyStr device_id then
    match get_user_primary_device db user_id with
    | some primary_device => .ok (some primary_device.device_id)
    | none => .ok device_id
  else
    match device_id with
    | none => .error ()
    | some did =>
      match get_device_by_id db did with
      | none => .error ()
      | some device => if device.user_id == some user_id then .ok (some did) else .error ()

/-- `routers/user.py buy_units` (POST /users/buy-units/{user_id}): validate,
create the transaction (immediately completed), credit the admin (user 3) by
`amount`, debit the user by `amount`, credit the device by `units`. -/
def buy_units (db : DB) (user_id : Nat) (purchase : UnitPurchase) (now : Nat) : PResult :=
  match get_user db user_id with
  | none => .err db 404 "User not found"
  | some user =>
  match get_user db 3 with
  | none => .err db 404 "Admin not found"
  | some _admin =>
  match get_active_electricity_rate db with
  | none => .err db 404 "No active electricity rate found"
  | some rate =>
    let amount := purchase.units * rate.price_per_unit
    match resolve_purchase_device db user_id purchase.device_id with
    | .error _ => .err db 404 "Device not found or does not belong to the user"
    | .ok device_id =>
      let t : Transaction :=
        { id := next_transaction_id db,
          user_id := user.id,
          rate_id := rate.id,
          amount := amount,
          units_purchased := purchase.units,
          transaction_reference := transaction_reference_for now user.id,
          status := .completed,
          balance_before := user.unit_balance,
          balance_after := user.unit_balance - amount,
          device_id := device_id,
          payment_method := "direct_transfer",
          notes := purchase.notes,
          created_at := now,
          completed_at := some now }
      let users1 := updateUserBalance db.users 3 (fun b => b + amount)
      let users2 := updateUserBalance users1 user_id (fun b => b - amount)
      let devices1 :=
        if truthyStr device_id then
          updateDeviceBalance db.devices (device_id.getD "") (fun b => b + purchase.units)
        else db.devices
      .ok { db with users := users2, devices := devices1,
                    transactions := db.transactions ++ [t] } t

/-- POST /users/buy-units/{user_id} including request validation. -/
def buy_units_route (db : DB) (user_id : Nat) (purchase : UnitPurchase) (now : Nat) :
    PResult :=
  if unitPurchaseValid purchase then buy_units db user_id purchase now
  else .err db 422 "units must be greater than 0"

/-- `crud.create_json_purchase`: creates a pending transaction priced at the
active rate; `balance_after` is `balance_before + units`. -/
def create_json_purchase (db : DB) (user_id : Nat) (purchase_data : JsonPurchase)
    (now : Nat) : Option (DB × Transaction) :=
  match get_user db user_id with
  | none => none
  | some user =>
  match get_active_electricity_rate db with
  | none => none
  | some rate =>
    let amount := purchase_data.units * rate.price_per_unit
    match resolve_purchase_device db user_id purchase_data.device_id with
    | .error _ => none
    | .ok device_id =>
      let t : Transaction :=
        { id := next_transaction_id db,
          user_id := user_id,
          rate_id := rate.id,
          amount := amount,
          units_purchased := purchase_data.units,
          transaction_reference := transaction_reference_for now user_id,
          status := .pending,
          balance_before := user.unit_balance,
          balance_after := user.unit_balance + purchase_data.units,
          device_id := device_id,
          payment_method := "direct_transfer",
          notes := purchase_data.notes,
          created_at := now,
          completed_at := none }
      some ({ db with transactions := db.transactions ++ [t] }, t)

/-- `routers/user.py purchase_with_json` (POST /users/purchase-json/{user_id}):
validate, create via `crud.create_json_purchase`, mark completed, credit the
admin (user 3) by `amount`, credit the user by `units`, credit the device (or
primary device) by `units`. -/
def purchase_with_json (db : DB) (user_id : Nat) (purchase_data : JsonPurchase)
    (now : Nat) : PResult :=
  match get_user db user_id with
  | none => .err db 404 "User not found"
  | some _user =>
  match get_user db 3 with
  | none => .err db 404 "Admin not found"
  | some _admin =>
  match get_active_electricity_rate db with
  | none => .err db 404 "No active electricity rate found"
  | some _rate =>
    let deviceOk : Bool :=
      if truthyStr purchase_data.device_id then
        match get_device_by_id db (purchase_data.device_id.getD "") with
        | some device => device.user_id == some user_id
        | none => false
      else true
    if !deviceOk then .err db 404 "Device not found or does not belong to the user"
    else
      match create_json_purchase db user_id purchase_data now with
      | none => .err db 400 "Failed to create transaction"
      | some (db1, t) =>
        let t1 := { t with status := .completed, completed_at := some now }
        let users1 := updateUserBalance db1.users 3 (fun b => b + t.amount)
        let users2 := updateUserBalance users1 user_id (fun b => b + purchase_data.units)
        let devices1 :=
          if truthyStr t1.device_id then
            updateDeviceBalance db1.devices (t1.device_id.getD "")
              (fun b => b + purchase_data.units)
          else
            match get_user_primary_device db1 user_id with
            | some primary_device =>
              updateDeviceBalance db1.devices primary_device.device_id
                (fun b => b + purchase_data.units)
            | none => db1.devices
        .ok { db1 with users := users2, devices := devices1,
                       transactions := replaceTransaction db1.transactions t1 } t1

/-- POST /users/purchase-json/{user_id} including request validation. -/
def purchase_with_json_route (db : DB) (user_id : Nat) (purchase_data : JsonPurchase)
    (now : Nat) : PResult :=
  if jsonPurchaseValid purchase_data then purchase_with_json db user_id purchase_data now
  else .err db 422 "units must be greater than 0"

/-- `crud.create_transaction`: pending transaction with caller-supplied amount;
`balance_after` is `balance_before + units`. -/
def create_transaction (db : DB) (user_id : Nat) (rate_id : Nat) (units amount : Rat)
    (payment_method : String) (device_id : Option String) (notes : Option String)
    (now : Nat) : Option (DB × Transaction) :=
  match get_user db user_id with
  | none => none
  | some user =>
    match resolve_purchase_device db user_id device_id with
    | .error _ => none
    | .ok resolved_id =>
      let t : Transaction :=
        { id := next_transaction_id db,
          user_id := user_id,
          rate_id := rate_id,
          amount := amount,
          units_purchased := units,
          transaction_reference := transaction_reference_for now user_id,
          status := .pending,
          balance_before := user.unit_balance,
          balance_after := user.unit_balance + units,
          device_id := resolved_id,
          payment_method := payment_method,
          notes := notes,
          created_at := now,
          completed_at := none }
      some ({ db with transactions := db.transactions ++ [t] }, t)

/-- `crud.update_transaction_status`: overwrite the status; on `completed`
credit the named device and the user, or (without a device) the user and the
primary device, by `units_purchased`.  A missing user would raise before the
commit (`user.unit_balance` on `None`), so nothing persists: `none`. -/
def update_transaction_status (db : DB) (transaction_id : Nat) (status : String)
    (now : Nat) : Option (DB × Transaction) :=
  match get_transaction db transaction_id with
  | none => none
  | some db_transaction =>
  match parseStatus status with
  | none => none
  | some new_status =>
    let t1 := { db_transaction with status := new_status }
    if new_status = .completed then
      let t2 := { t1 with completed_at := some now }
      match get_user db t2.user_id with
      | none => none
      | some _user =>
        if truthyStr t2.device_id then
          match get_device_by_id db (t2.device_id.getD "") with
          | some _device =>
            some ({ db with
                      devices := updateDeviceBalance db.devices (t2.device_id.getD "")
                        (fun b => b + t2.units_purchased),
                      users := updateUserBalance db.users t2.user_id
                        (fun b => b + t2.units_purchased),
                      transactions := replaceTransaction db.transactions t2 }, t2)
          | none =>
            some ({ db with transactions := replaceTransaction db.transactions t2 }, t2)
        else
          let devices1 :=
            match get_user_primary_device db t2.user_id with
            | some primary_device =>
              updateDeviceBalance db.devices primary_device.device_id
                (fun b => b + t2.units_purchased)
            | none => db.devices
          some ({ db with
                    users := updateUserBalance db.users t2.user_id
                      (fun b => b + t2.units_purchased),
                    devices := devices1,
                    transactions := replaceTransaction db.transactions t2 }, t2)
    else
      some ({ db with transactions := replaceTransaction db.transactions t1 }, t1)

/-- `routers/whatsapp.py buy_electricity_internal` (POST /whatsapp/buy-electricity):
no validation of `units`; resolves device → owner → rate, creates the
transaction, then completes it via `crud.update_transaction_status`. -/
def buy_electricity_internal (db : DB) (device_id : String) (units : Rat)
    (payment_method : String) (notes : Option String) (now : Nat) : PResult :=
  match get_device_by_id db device_id with
  | none => .err db 404 "Device not found"
  | some device =>
  match (match device.user_id with | some uid => get_user db uid | none => none) with
  | none => .err db 404 "User associated with device not found"
  | some user =>
  match get_active_electricity_rate db with
  | none => .err db 404 "No active electricity rate found"
  | some rate =>
    let amount := units * rate.price_per_unit
    match create_transaction db user.id rate.id units amount payment_method
        (some device_id) notes now with
    | none => .err db 400 "Failed to create transaction"
    | some (db1, t) =>
      match update_transaction_status db1 t.id "completed" now with
      | none => .err db1 500 "Failed to complete transaction"
      | some (db2, t2) => .ok db2 t2

/-! ## GET /users/device/{user_id} (`routers/user.py get_device_status`) -/

/-- A Python value obtained by attribute access. -/
inductive PyVal where
  | vNat (n : Nat)
  | vStr (s : String)
  | vRat (q : Rat)
  | vBool (b : Bool)
  | vOther
deriving DecidableEq, Repr

/-- The attributes the `models.py` `User` class defines (columns and
relationships; the old `device_id` column was removed in favour of the
`devices` relationship). -/
def userModelAttributes : List String :=
  ["id", "username", "email", "password_hash", "full_name", "phone_number", "role",
   "unit_balance", "is_active", "created_at", "updated_at", "transactions", "devices"]

/-- Python attribute access on a mapped `User` instance: `none` models the
`AttributeError` raised for a name the model does not define. -/
def userGetAttr (u : User) (name : String) : Option PyVal :=
  if name = "id" then some (.vNat u.id)
  else if name = "username" then some (.vStr u.username)
  else if name = "unit_balance" then some (.vRat u.unit_balance)
  else if name = "is_active" then some (.vBool u.is_active)
  else if userModelAttributes.contains name then some .vOther
  else none

/-- Python truthiness of an attribute value. -/
def pyTruthy (v : PyVal) : Bool :=
  match v with
  | .vNat n => n != 0
  | .vStr s => s != ""
  | .vRat q => decide (q ≠ 0)
  | .vBool b => b
  | .vOther => true

/-- String content of an attribute value (used as a device id). -/
def pyValStr (v : PyVal) : String :=
  match v with
  | .vStr s => s
  | _ => ""

/-- Outcome of GET /users/device/{user_id}. -/
inductive DeviceStatusResult where
  | ok (d : DeviceStatus)
  | httpError (code : Nat) (detail : String)
  | attributeError (attr : String)
deriving DecidableEq, Repr

/-- `routers/user.py get_device_status`: look the user up, then read
`user.device_id` and continue with the device lookup. -/
def get_device_status (db : DB) (user_id : Nat) : DeviceStatusResult :=
  match get_user db user_id with
  | none => .httpError 404 "User not found"
  | some user =>
    match userGetAttr user "device_id" with
    | none => .attributeError "device_id"
    | some v =>
      if !pyTruthy v then .httpError 404 "No device associated with this user"
      else
        match get_device_by_id db (pyValStr v) with
        | none => .httpError 404 "Device not found"
        | some device => .ok device

/-! ## Concrete stores used to exercise the operations -/

/-- Empty store. -/
def dbNoUsers : DB := { users := [], devices := [], rates := [], transactions := [] }

/-- A regular user: id 1, balance 50. -/
def userEx : User := { id := 1, username := "alice", unit_balance := 50, is_active := true }

/-- The treasury/admin account: id 3, balance 100. -/
def treasuryEx : User :=
  { id := 3, username := "treasury", unit_balance := 100, is_active := true }

/-- User 1's primary device, balance 10. -/
def deviceEx : DeviceStatus :=
  { device_id := "MTR0000001", user_id := some 1, device_name := some "Home meter",
    unit_balance := 10, is_primary := true }

/-- The active rate: price 10 per unit. -/
def rateEx : ElectricityRate :=
  { id := 1, rate_name := "Standard", price_per_unit := 10, is_active := true,
    effective_date := 0 }

/-- A store with a regular user (id 1, balance 50), the treasury account
(id 3, balance 100), one primary device owned by user 1 (balance 10), and one
active rate at price 10. -/
def dbEx : DB :=
  { users := [userEx, treasuryEx], devices := [deviceEx], rates := [rateEx],
    transactions := [] }

/-- `dbEx` with transaction 1 already `completed` (5 units, amount 50,
applied to the device). -/
def dbCompleted : DB :=
  { dbEx with transactions :=
      [{ id := 1, user_id := 1, rate_id := 1, amount := 50, units_purchased := 5,
         transaction_reference := "TR-0-1", status := .completed,
         balance_before := 50, balance_after := 55,
         device_id := some "MTR0000001", payment_method := "WhatsApp", notes := none,
         created_at := 0, completed_at := some 0 }] }

/-- A valid body for POST /users/buy-units/{user_id}: 5 units, no explicit
device. -/
def upEx : UnitPurchase :=
  { units := 5, payment_method := "direct_transfer", device_id := none, notes := none }

/-- A valid body for POST /users/purchase-json/{user_id}: 5 units, no explicit
device. -/
def jpEx : JsonPurchase := { units := 5, device_id := none, notes := none }

/-- The store a handler leaves behind (on success or on error). -/
def presultDB : PResult → DB
  | .ok db _ => db
  | .err db _ _ => db

/-- Whether the handler succeeded. -/
def presultIsOk : PResult → Bool
  | .ok _ _ => true
  | .err _ _ _ => false

/-- Amount of the returned transaction, if any. -/
def presultAmount : PResult → Option Rat
  | .ok _ t => some t.amount
  | .err _ _ _ => none

/-- Units of the returned transaction, if any. -/
def presultUnits : PResult → Option Rat
  | .ok _ t => some t.units_purchased
  | .err _ _ _ => none

/-- Status of the returned transaction, if any. -/
def presultStatus : PResult → Option TransactionStatus
  | .ok _ t => some t.status
  | .err _ _ _ => none

/-- The returned transaction (dummy row on error). -/
def presultTxn : PResult → Transaction
  | .ok _ t => t
  | .err _ _ _ =>
    { id := 0, user_id := 0, rate_id := 0, amount := 0, units_purchased := 0,
      transaction_reference := "", status := .pending, balance_before := 0,
      balance_after := 0, device_id := none, payment_method := "", notes := none,
      created_at := 0, completed_at := none }

/-- The result of the WhatsApp purchase of 5 units on the concrete store. -/
def whatsAppResultEx : PResult :=
  buy_electricity_internal dbEx "MTR0000001" 5 "WhatsApp" none 7

/-- The result of the WhatsApp purchase of 0 units on the concrete store. -/
def whatsAppZeroResultEx : PResult :=
  buy_electricity_internal dbEx "MTR0000001" 0 "WhatsApp" none 7

/-- The transaction committed by POST /users/buy-units/1 with `upEx` on
`dbEx` at time 7. -/
def txnBuyUnitsEx : Transaction :=
  { id := 1, user_id := 1, rate_id := 1, amount := 50, units_purchased := 5,
    transaction_reference := "TR-7-1", status := .completed, balance_before := 50,
    balance_after := 0, device_id := some "MTR0000001",
    payment_method := "direct_transfer", notes := none, created_at := 7,
    completed_at := some 7 }

/-- The transaction committed by POST /users/purchase-json/1 with `jpEx` on
`dbEx` at time 7. -/
def txnJsonEx : Transaction :=
  { id := 1, user_id := 1, rate_id := 1, amount := 50, units_purchased := 5,
    transaction_reference := "TR-7-1", status := .completed, balance_before := 50,
    balance_after := 55, device_id := some "MTR0000001",
    payment_method := "direct_transfer", notes := none, created_at := 7,
    completed_at := some 7 }

/-- The transaction committed by the WhatsApp purchase of 5 units on `dbEx`. -/
def txnWhatsAppEx : Transaction :=
  { id := 1, user_id := 1, rate_id := 1, amount := 50, units_purchased := 5,
    transaction_reference := "TR-7-1", status := .completed, balance_before := 50,
    balance_after := 55, device_id := some "MTR0000001",
    payment_method := "WhatsApp", notes := none, created_at := 7,
    completed_at := some 7 }

/-- `dbCompleted`'s transaction after an external update back to `pending`. -/
def txnPendingEx : Transaction :=
  { id := 1, user_id := 1, rate_id := 1, amount := 50, units_purchased := 5,
    transaction_reference := "TR-0-1", status := .pending, balance_before := 50,
    balance_after := 55, device_id := some "MTR0000001", payment_method := "WhatsApp",
    notes := none, created_at := 0, completed_at := some 0 }

/-- `dbCompleted` after its transaction is reverted to `pending`. -/
def dbPendingEx : DB := { dbEx with transactions := [txnPendingEx] }

/-! ### List helper lemmas -/

theorem foldl_max_init_le (l : List Nat) : ∀ a : Nat, a ≤ l.foldl max a := by
  induction l with
  | nil => intro a; simp
  | cons h t ih => intro a; exact le_trans (le_max_left a h) (ih (max a h))

theorem mem_le_foldl_max (l : List Nat) : ∀ (a x : Nat), x ∈ l → x ≤ l.foldl max a := by
  induction l with
  | nil => intro a x hx; cases hx
  | cons h t ih =>
    intro a x hx
    rcases List.mem_cons.mp hx with rfl | hx
    · exact le_trans (le_max_right a x) (foldl_max_init_le t (max a x))
    · exact ih (max a h) x hx

theorem freshRateId_not_mem (db : DB) : freshRateId db ∉ db.rates.map (fun r => r.id) := by
  intro hmem
  have h := mem_le_foldl_max (db.rates.map fun r => r.id) 0 (freshRateId db) hmem
  unfold freshRateId at h
  omega

theorem next_transaction_id_not_mem (db : DB) :
    next_transaction_id db ∉ db.transactions.map (fun t => t.id) := by
  intro hmem
  have h := mem_le_foldl_max (db.transactions.map fun t => t.id) 0 (next_transaction_id db) hmem
  unfold next_transaction_id at h
  omega

/-- In a table with unique keys, at most one row matches a given key. -/
theorem countP_key_le_one {α β : Type} [DecidableEq β] (f : α → β) (k : β) :
    ∀ l : List α, (l.map f).Nodup → l.countP (fun x => f x == k) ≤ 1 := by
  intro l
  induction l with
  | nil => intro _; simp
  | cons a t ih =>
    intro hnd
    rw [List.map_cons, List.nodup_cons] at hnd
    obtain ⟨hna, hnd⟩ := hnd
    by_cases hk : f a = k
    · have hz : t.countP (fun x => f x == k) = 0 := by
        apply List.countP_eq_zero.mpr
        intro x hx hpx
        have hfx : f x = k := by simpa using hpx
        exact hna (by rw [hk, ← hfx]; exact List.mem_map_of_mem f hx)
      simp [List.countP_cons, hk, hz]
    · have ht := ih hnd
      simp only [List.countP_cons]
      have : (f a == k) = false := by simp [hk]
      simp [this]
      omega

/-- Counting after replacing the (unique) row with key `k` by a row whose
predicate value is `w`. -/
theorem countP_replace_key {α : Type} (f : α → Nat) (k : Nat) (p : α → Bool) (w : Bool) :
    ∀ (l : List α) (x0 : α), (l.map f).Nodup → l.find? (fun x => f x == k) = some x0 →
      l.countP (fun x => if f x == k then w else p x) + (if p x0 then 1 else 0)
        = l.countP p + (if w then 1 else 0) := by
  intro l
  induction l with
  | nil => intro x0 _ hf; simp [List.find?] at hf
  | cons a t ih =>
    intro x0 hnd hf
    rw [List.map_cons, List.nodup_cons] at hnd
    obtain ⟨hna, hnd⟩ := hnd
    by_cases hk : f a = k
    · rw [List.find?_cons_of_pos _ (by simp [hk])] at hf
      injection hf with hf
      subst hf
      have hcong : t.countP (fun x => if f x == k then w else p x) = t.countP p := by
        apply List.countP_congr
        intro x hx
        have hxk : ¬ f x = k := by
          intro hxx
          exact hna (by rw [hk, ← hxx]; exact List.mem_map_of_mem f hx)
        simp [hxk]
      simp only [List.countP_cons, hcong, hk]
      cases w <;> cases hpa : p a <;> simp [hpa]
    · rw [List.find?_cons_of_neg _ (by simp [hk])] at hf
      have ht := ih x0 hnd hf
      simp only [List.countP_cons]
      have hba : (f a == k) = false := by simp [hk]
      simp only [hba, Bool.false_eq_true, if_false]
      omega

theorem map_ids_congr (l : List ElectricityRate) (g : ElectricityRate → ElectricityRate)
    (h : ∀ x ∈ l, (g x).id = x.id) :
    (l.map g).map (fun r => r.id) = l.map (fun r => r.id) := by
  rw [List.map_map]
  exact List.map_congr_left (by intro x hx; simp [h x hx])

theorem deactivate_ids (l : List ElectricityRate) :
    (deactivateActiveRates l).map (fun r => r.id) = l.map (fun r => r.id) := by
  unfold deactivateActiveRates
  exact map_ids_congr l _ (by intro x _; by_cases hx : x.is_active <;> simp [hx])

theorem deactivate_count (l : List ElectricityRate) :
    (deactivateActiveRates l).countP (fun r => r.is_active) = 0 := by
  unfold deactivateActiveRates
  rw [List.countP_map]
  apply List.countP_eq_zero.mpr
  intro x _
  by_cases hx : x.is_active <;> simp [Function.comp, hx]

theorem get_electricity_rate_id (db : DB) (rid : Nat) (r : ElectricityRate)
    (h : get_electricity_rate db rid = some r) : r.id = rid := by
  unfold get_electricity_rate at h
  have := List.find?_some h
  simpa using this

theorem applyRateUpdate_id (r : ElectricityRate) (u : ElectricityRateUpdate) :
    (applyRateUpdate r u).id = r.id := by
  unfold applyRateUpdate
  rcases u with ⟨rn, pp, ia, ed⟩
  cases rn <;> cases pp <;> cases ia <;> cases ed <;> simp

theorem applyRateUpdate_is_active (r : ElectricityRate) (u : ElectricityRateUpdate) :
    (applyRateUpdate r u).is_active = u.is_active.getD r.is_active := by
  unfold applyRateUpdate
  rcases u with ⟨rn, pp, ia, ed⟩
  cases rn <;> cases pp <;> cases ia <;> cases ed <;> simp

theorem replaceRateById_ids (l : List ElectricityRate) (rid : Nat) (newR : ElectricityRate)
    (h : newR.id = rid) :
    (replaceRateById l rid newR).map (fun r => r.id) = l.map (fun r => r.id) := by
  unfold replaceRateById
  apply map_ids_congr
  intro x _
  by_cases hx : x.id = rid <;> simp [hx, h]

theorem deactivateOtherActiveRates_ids (l : List ElectricityRate) (rid : Nat) :
    (deactivateOtherActiveRates l rid).map (fun r => r.id) = l.map (fun r => r.id) := by
  unfold deactivateOtherActiveRates
  apply map_ids_congr
  intro x _
  by_cases hx : x.id != rid && x.is_active <;> simp [hx]

theorem deactivateAllOtherRates_ids (l : List ElectricityRate) (rid : Nat) :
    (deactivateAllOtherRates l rid).map (fun r => r.id) = l.map (fun r => r.id) := by
  unfold deactivateAllOtherRates
  apply map_ids_congr
  intro x _
  by_cases hx : x.id != rid <;> simp [hx]

/-- After deactivating the other active rates and writing back an active target
row, the active rows are exactly the rows keyed `rid`. -/
theorem count_deactOther_replace (l : List ElectricityRate) (rid : Nat)
    (newR : ElectricityRate) (hw : newR.is_active = true) :
    (replaceRateById (deactivateOtherActiveRates l rid) rid newR).countP (fun r => r.is_active)
      = l.countP (fun r => r.id == rid) := by
  unfold replaceRateById deactivateOtherActiveRates
  rw [List.map_map, List.countP_map]
  apply List.countP_congr
  intro x _
  by_cases hid : x.id = rid
  · simp [Function.comp, hid, hw]
  · by_cases hx : x.is_active <;> simp [Function.comp, hid, hx]

theorem count_deactAll_replace (l : List ElectricityRate) (rid : Nat)
    (newR : ElectricityRate) (hw : newR.is_active = true) :
    (replaceRateById (deactivateAllOtherRates l rid) rid newR).countP (fun r => r.is_active)
      = l.countP (fun r => r.id == rid) := by
  unfold replaceRateById deactivateAllOtherRates
  rw [List.map_map, List.countP_map]
  apply List.countP_congr
  intro x _
  by_cases hid : x.id = rid
  · simp [Function.comp, hid, hw]
  · simp [Function.comp, hid]

theorem count_replaceRateById (l : List ElectricityRate) (rid : Nat)
    (newR x0 : ElectricityRate) (hnd : (l.map (fun r => r.id)).Nodup)
    (hfind : l.find? (fun r => r.id == rid) = some x0) :
    (replaceRateById l rid newR).countP (fun r => r.is_active)
        + (if x0.is_active then 1 else 0)
      = l.countP (fun r => r.is_active) + (if newR.is_active then 1 else 0) := by
  unfold replaceRateById
  rw [List.countP_map]
  have hcong : l.countP ((fun r => r.is_active) ∘ fun r => if r.id == rid then newR else r)
      = l.countP (fun x => if x.id == rid then newR.is_active else x.is_active) := by
    apply List.countP_congr
    intro x _
    by_cases hx : x.id = rid <;> simp [Function.comp, hx]
  rw [hcong]
  exact countP_replace_key (fun r => r.id) rid (fun r => r.is_active) newR.is_active l x0
    hnd hfind

/-- Every rate-catalog operation preserves the invariant. -/
theorem rateInvariant_step (db : DB) (op : RateOp) (h : RateInvariant db) :
    RateInvariant (applyRateOp db op) := by
  obtain ⟨hnd, hcnt⟩ := h
  unfold rateIdsNodup at hnd
  unfold activeRateCount at hcnt
  cases op with
  | create rate now =>
    simp only [applyRateOp, create_electricity_rate]
    constructor
    · unfold rateIdsNodup
      simp only [List.map_append]
      rw [List.nodup_append]
      refine ⟨?_, by simp, ?_⟩
      · by_cases hra : rate.is_active <;> simp [hra, deactivate_ids, hnd]
      · intro a ha1 ha2
        simp only [List.map_cons, List.map_nil, List.mem_singleton] at ha2
        subst ha2
        apply freshRateId_not_mem db
        by_cases hra : rate.is_active
        · rw [hra] at ha1; simpa [deactivate_ids] using ha1
        · simpa [hra] using ha1
    · unfold activeRateCount
      simp only [List.countP_append]
      by_cases hra : rate.is_active
      · simp [hra, deactivate_count, List.countP_cons]
      · simp only [hra, if_false, List.countP_cons, List.countP_nil]
        simp [hra]
        omega
  | update rid u =>
    simp only [applyRateOp]
    cases hget : get_electricity_rate db rid with
    | none => simp only [update_electricity_rate, hget]; exact ⟨hnd, hcnt⟩
    | some db_rate =>
      have hid : db_rate.id = rid := get_electricity_rate_id db rid db_rate hget
      have hnewid : (applyRateUpdate db_rate u).id = rid := by
        rw [applyRateUpdate_id]; exact hid
      simp only [update_electricity_rate, hget]
      by_cases hact : u.is_active = some true
      · constructor
        · unfold rateIdsNodup
          simp only [hact]
          simpa [replaceRateById_ids _ _ _ hnewid, deactivateOtherActiveRates_ids] using hnd
        · unfold activeRateCount
          simp only [hact]
          have hw : (applyRateUpdate db_rate u).is_active = true := by
            rw [applyRateUpdate_is_active, hact]; rfl
          simp only [show ((some true : Option Bool) == some true) = true from rfl, if_true]
          rw [count_deactOther_replace db.rates rid _ hw]
          exact countP_key_le_one (fun r => r.id) rid db.rates hnd
      · have hbe : (u.is_active == some true) = false := by
          cases hia : u.is_active with
          | none => rfl
          | some b => cases b <;> simp_all
        constructor
        · unfold rateIdsNodup
          simp only [hbe, Bool.false_eq_true, if_false]
          simpa [replaceRateById_ids _ _ _ hnewid] using hnd
        · unfold activeRateCount
          simp only [hbe, Bool.false_eq_true, if_false]
          have heq := count_replaceRateById db.rates rid (applyRateUpdate db_rate u) db_rate
            hnd hget
          have hw : (applyRateUpdate db_rate u).is_active
              = u.is_active.getD db_rate.is_active := applyRateUpdate_is_active db_rate u
          cases hia : u.is_active with
          | none =>
            rw [hia, Option.getD_none] at hw
            rw [hw] at heq
            omega
          | some b =>
            cases b
            · rw [hia, Option.getD_some] at hw
              rw [hw] at heq
              simp only [Bool.false_eq_true, if_false] at heq
              omega
            · exact absurd hia hact
  | activate rid =>
    simp only [applyRateOp]
    cases hget : get_electricity_rate db rid with
    | none => simp only [activate_electricity_rate, hget]; exact ⟨hnd, hcnt⟩
    | some db_rate =>
      have hid : db_rate.id = rid := get_electricity_rate_id db rid db_rate hget
      simp only [activate_electricity_rate, hget]
      constructor
      · unfold rateIdsNodup
        simpa [replaceRateById_ids _ _ { db_rate with is_active := true } hid,
          deactivateAllOtherRates_ids] using hnd
      · unfold activeRateCount
        rw [count_deactAll_replace db.rates rid { db_rate with is_active := true } rfl]
        exact countP_key_le_one (fun r => r.id) rid db.rates hnd

/-- **C5**: for every sequence of rate-catalog operations (`createRate`,
`updateRate`, `activateRate`) starting from a state with at most one active
rate plan (and the table's primary keys unique), at most one `RatePlan` has
`is_active = true` after each operation. -/
theorem rate_catalog_at_most_one_active (db : DB) (ops : List RateOp)
    (h : RateInvariant db) : RateInvariant (ops.foldl applyRateOp db) := by
  induction ops generalizing db with
  | nil => exact h
  | cons op rest ih => exact ih (applyRateOp db op) (rateInvariant_step db op h)

/-! ### Device-directory invariant (C6) -/

theorem map_key_congr {α β : Type} (l : List α) (g : α → α) (f : α → β)
    (h : ∀ x ∈ l, f (g x) = f x) : (l.map g).map f = l.map f := by
  rw [List.map_map]
  exact List.map_congr_left (by intro x hx; simp [h x hx])

theorem clearPrimaryForUser_ids (l : List DeviceStatus) (uid : Option Nat) :
    (clearPrimaryForUser l uid).map (fun d => d.device_id)
      = l.map (fun d => d.device_id) := by
  unfold clearPrimaryForUser
  apply map_key_congr
  intro x _
  by_cases hx : (x.user_id == uid && x.is_primary) = true <;> simp [hx]

theorem clearPrimaryForUserExcept_ids (l : List DeviceStatus) (uid : Option Nat)
    (did : String) :
    (clearPrimaryForUserExcept l uid did).map (fun d => d.device_id)
      = l.map (fun d => d.device_id) := by
  unfold clearPrimaryForUserExcept
  apply map_key_congr
  intro x _
  by_cases hx : (x.user_id == uid && x.is_primary && x.device_id != did) = true <;> simp [hx]

theorem get_device_by_id_key (db : DB) (did : String) (d : DeviceStatus)
    (h : get_device_by_id db did = some d) : d.device_id = did := by
  unfold get_device_by_id at h
  have := List.find?_some h
  simpa using this

theorem get_device_by_id_none_not_mem (db : DB) (did : String)
    (h : get_device_by_id db did = none) :
    did ∉ db.devices.map (fun d => d.device_id) := by
  unfold get_device_by_id at h
  rw [List.find?_eq_none] at h
  intro hmem
  obtain ⟨d, hd, hdid⟩ := List.mem_map.mp hmem
  exact (h d hd) (by simp [hdid])

theorem generate_unique_meter_id_from_fresh (db : DB) (draws : Nat → String) :
    ∀ (fuel k : Nat) (mid : String),
      generate_unique_meter_id_from db draws k fuel = some mid →
      get_device_by_id db mid = none := by
  intro fuel
  induction fuel with
  | zero => intro k mid h; simp [generate_unique_meter_id_from] at h
  | succ f ih =>
    intro k mid h
    unfold generate_unique_meter_id_from at h
    cases hg : get_device_by_id db ("MTR" ++ draws k) with
    | none =>
      simp only [hg] at h
      injection h with h
      rw [← h]
      exact hg
    | some d =>
      simp only [hg] at h
      exact ih (k + 1) mid h

theorem generate_unique_meter_id_fresh (db : DB) (draws : Nat → String) (fuel : Nat)
    (mid : String) (h : generate_unique_meter_id db draws fuel = some mid) :
    get_device_by_id db mid = none :=
  generate_unique_meter_id_from_fresh db draws fuel 0 mid h

theorem primaryCount_clear_same (l : List DeviceStatus) (u : Nat) :
    primaryCount (clearPrimaryForUser l (some u)) u = 0 := by
  unfold primaryCount clearPrimaryForUser
  rw [List.countP_map]
  apply List.countP_eq_zero.mpr
  intro d _
  by_cases hc : (d.user_id == some u && d.is_primary) = true <;>
    simp [Function.comp, hc]

theorem primaryCount_clear_other (l : List DeviceStatus) (uid : Option Nat) (u : Nat)
    (h : uid ≠ some u) :
    primaryCount (clearPrimaryForUser l uid) u = primaryCount l u := by
  unfold primaryCount clearPrimaryForUser
  rw [List.countP_map]
  apply List.countP_congr
  intro d _
  by_cases hc : (d.user_id == uid && d.is_primary) = true
  · have hdu : d.user_id = uid := by
      have := (Bool.and_eq_true _ _).mp hc
      simpa using this.1
    have hpr : d.is_primary = true := ((Bool.and_eq_true _ _).mp hc).2
    simp [Function.comp, hdu, hpr, h]
  · simp [Function.comp, hc]

set_option linter.unnecessarySeqFocus false in
/-- Every device-directory operation preserves the invariant. -/
theorem deviceInvariant_step (db : DB) (op : DeviceOp) (h : DeviceInvariant db) :
    DeviceInvariant (applyDeviceOp db op) := by
  obtain ⟨hnd, hcnt⟩ := h
  unfold deviceIdsNodup at hnd
  cases op with
  | create device draws fuel =>
    simp only [applyDeviceOp]
    cases hg : create_device db device draws fuel with
    | none => exact ⟨hnd, hcnt⟩
    | some p =>
      unfold create_device at hg
      cases hm : generate_unique_meter_id db draws fuel with
      | none => rw [hm] at hg; cases hg
      | some mid =>
        rw [hm] at hg
        simp only [Option.some.injEq] at hg
        have hfresh := generate_unique_meter_id_fresh db draws fuel mid hm
        have hnotmem := get_device_by_id_none_not_mem db mid hfresh
        rw [← hg]
        constructor
        · unfold deviceIdsNodup
          simp only [List.map_append]
          rw [List.nodup_append]
          refine ⟨?_, by simp, ?_⟩
          · by_cases hip : (device.is_primary.getD false && truthyUid device.user_id) = true <;>
              simp [hip, clearPrimaryForUser_ids, hnd]
          · intro a ha1 ha2
            simp only [List.map_cons, List.map_nil, List.mem_singleton] at ha2
            subst ha2
            apply hnotmem
            by_cases hip : (device.is_primary.getD false && truthyUid device.user_id) = true
            · rw [hip] at ha1; simpa [clearPrimaryForUser_ids] using ha1
            · simpa [hip] using ha1
        · intro u hu
          unfold primaryCount
          simp only [List.countP_append]
          by_cases hip : (device.is_primary.getD false && truthyUid device.user_id) = true
          · obtain ⟨hip1, hip2⟩ := (Bool.and_eq_true _ _).mp hip
            simp only [hip, if_true]
            cases huid : device.user_id with
            | none => rw [huid] at hip2; cases hip2
            | some u0 =>
              by_cases huu : u0 = u
              · subst huu
                have h0 := primaryCount_clear_same db.devices u0
                unfold primaryCount at h0
                rw [h0]
                simp [hip1]
              · have h0 := primaryCount_clear_other db.devices (some u0) u
                  (by simp [huu])
                unfold primaryCount at h0
                rw [h0]
                have := hcnt u hu
                unfold primaryCount at this
                simp only [List.countP_cons, List.countP_nil]
                simp [huu]
                omega
          · simp only [hip, if_false]
            have := hcnt u hu
            unfold primaryCount at this
            have hdev0 : ((device.user_id == some u) && device.is_primary.getD false) = false := by
              cases hip1 : device.is_primary.getD false
              · simp
              · rw [hip1] at hip
                simp only [Bool.true_and] at hip
                cases huid : device.user_id with
                | none => simp
                | some u0 =>
                  rw [huid] at hip
                  have : u0 = 0 := by
                    by_contra hne
                    exact hip (by simp [truthyUid, hne])
                  subst this
                  simp
                  omega
            simp only [List.countP_cons, List.countP_nil, hdev0]
            simpa using this
  | assign did user_id device_name make_primary =>
    simp only [applyDeviceOp]
    cases hg : assign_device_to_user db did user_id device_name make_primary with
    | none => exact ⟨hnd, hcnt⟩
    | some p =>
      unfold assign_device_to_user at hg
      cases hd : get_device_by_id db did with
      | none => rw [hd] at hg; cases hg
      | some db_device =>
        rw [hd] at hg
        simp only [Option.some.injEq] at hg
        rw [← hg]
        have hkey : db_device.device_id = did := get_device_by_id_key db did db_device hd
        constructor
        · unfold deviceIdsNodup
          unfold replaceDeviceById
          by_cases hmp : make_primary
          · rw [map_key_congr _ _ _ (by
              intro x hx
              by_cases hxd : (x.device_id == did) = true
              · simp only [hxd, if_true]
                have : x.device_id = did := by simpa using hxd
                rw [this, hkey]
              · simp [hxd])]
            simpa [hmp, clearPrimaryForUser_ids] using hnd
          · rw [map_key_congr _ _ _ (by
              intro x hx
              by_cases hxd : (x.device_id == did) = true
              · simp only [hxd, if_true]
                have : x.device_id = did := by simpa using hxd
                rw [this, hkey]
              · simp [hxd])]
            simpa [hmp] using hnd
        · intro u hu
          unfold primaryCount replaceDeviceById
          by_cases hmp : make_primary
          · simp only [hmp, if_true]
            unfold clearPrimaryForUser
            rw [List.map_map, List.countP_map]
            by_cases huu : user_id = u
            · subst huu
              have hle := countP_key_le_one (fun d : DeviceStatus => d.device_id) did
                db.devices hnd
              refine le_trans (le_of_eq (List.countP_congr ?_)) hle
              intro d _
              by_cases hc : (d.user_id == some user_id && d.is_primary) = true <;>
                by_cases hdd : (d.device_id == did) = true <;>
                  simp [Function.comp, hc, hdd]
            · have hle := hcnt u hu
              unfold primaryCount at hle
              refine le_trans (List.countP_mono_left ?_) hle
              intro d _ hq
              by_cases hc : (d.user_id == some user_id && d.is_primary) = true <;>
                by_cases hdd : (d.device_id == did) = true <;>
                  simp [Function.comp, hc, hdd, huu] at hq ⊢ <;> tauto
          · simp only [hmp, if_false]
            rw [List.countP_map]
            have hle := hcnt u hu
            unfold primaryCount at hle
            refine le_trans (List.countP_mono_left ?_) hle
            intro d _ hq
            by_cases hdd : (d.device_id == did) = true <;>
              simp [Function.comp, hdd, hmp] at hq ⊢ <;> tauto
  | makePrimary did =>
    simp only [applyDeviceOp]
    cases hg : make_device_primary db did with
    | none => exact ⟨hnd, hcnt⟩
    | some p =>
      unfold make_device_primary at hg
      cases hd : get_device_by_id db did with
      | none => rw [hd] at hg; cases hg
      | some db_device =>
        rw [hd] at hg
        by_cases huid : truthyUid db_device.user_id = true
        case neg => simp [huid] at hg
        simp only [huid, Bool.not_true, Bool.false_eq_true, if_false,
          Option.some.injEq] at hg
        rw [← hg]
        have hkey : db_device.device_id = did := get_device_by_id_key db did db_device hd
        cases huid0 : db_device.user_id with
        | none => rw [huid0] at huid; cases huid
        | some u0 =>
        constructor
        · unfold deviceIdsNodup replaceDeviceById
          rw [map_key_congr _ _ _ (by
            intro x hx
            by_cases hxd : (x.device_id == did) = true
            · simp only [hxd, if_true]
              have : x.device_id = did := by simpa using hxd
              rw [this, hkey]
            · simp [hxd])]
          simpa [clearPrimaryForUserExcept_ids] using hnd
        · intro u hu
          unfold primaryCount replaceDeviceById clearPrimaryForUserExcept
          rw [List.map_map, List.countP_map]
          by_cases huu : u0 = u
          · subst huu
            have hle := countP_key_le_one (fun d : DeviceStatus => d.device_id) did
              db.devices hnd
            refine le_trans (le_of_eq (List.countP_congr ?_)) hle
            intro d _
            by_cases hdd : (d.device_id == did) = true
            · have hdeq : d.device_id = did := by simpa using hdd
              simp [Function.comp, hdeq, huid0]
            · have hdne : d.device_id ≠ did := by simpa using hdd
              by_cases hcp : d.user_id = some u0 ∧ d.is_primary = true
              · obtain ⟨h1, h2⟩ := hcp
                simp [Function.comp, h1, h2, hdne, huid0]
              · simp [Function.comp, hdne, huid0, hcp]
          · have hle := hcnt u hu
            unfold primaryCount at hle
            refine le_trans (List.countP_mono_left ?_) hle
            intro d _ hq
            by_cases hdd : (d.device_id == did) = true
            · have hdeq : d.device_id = did := by simpa using hdd
              simp [Function.comp, hdeq, huid0, huu] at hq
            · have hdne : d.device_id ≠ did := by simpa using hdd
              by_cases hcp : d.user_id = some u0 ∧ d.is_primary = true
              · obtain ⟨h1, h2⟩ := hcp
                simp [Function.comp, h1, h2, hdne, huid0] at hq
              · simp [Function.comp, hdne, huid0, hcp] at hq
                simp [hq.1, hq.2]

/-- **C6**: for every user and every sequence of device operations (device
creation, assign, make-primary) starting from a state where each (real,
positive-id) user has at most one primary device and device ids are unique,
at most one device per user has `is_primary = true` after each operation. -/
theorem device_directory_at_most_one_primary (db : DB) (ops : List DeviceOp)
    (h : DeviceInvariant db) : DeviceInvariant (ops.foldl applyDeviceOp db) := by
  induction ops generalizing db with
  | nil => exact h
  | cons op rest ih => exact ih (applyDeviceOp db op) (deviceInvariant_step db op h)

/-- The concrete store satisfies the device invariant. -/
theorem dbEx_deviceInvariant : DeviceInvariant dbEx := by
  constructor
  · show (dbEx.devices.map (fun d => d.device_id)).Nodup
    decide
  · intro u hu
    unfold primaryCount dbEx
    simp only [List.countP_cons, List.countP_nil]
    split <;> omega

/-- Witness for C6: make the device primary again, then reassign it as
primary, on the concrete store. -/
theorem device_directory_at_most_one_primary_witness :
    DeviceInvariant (List.foldl applyDeviceOp dbEx
      [DeviceOp.makePrimary "MTR0000001",
       DeviceOp.assign "MTR0000001" 1 none true]) :=
  device_directory_at_most_one_primary dbEx
    [DeviceOp.makePrimary "MTR0000001", DeviceOp.assign "MTR0000001" 1 none true]
    dbEx_deviceInvariant

/-- Witness for C5: a create-then-activate sequence on the concrete store. -/
theorem rate_catalog_at_most_one_active_witness :
    RateInvariant (List.foldl applyRateOp dbEx
      [RateOp.create { rate_name := "Off-peak", price_per_unit := 5, is_active := true,
                       effective_date := none } 4,
       RateOp.activate 1]) :=
  rate_catalog_at_most_one_active dbEx
    [RateOp.create { rate_name := "Off-peak", price_per_unit := 5, is_active := true,
                     effective_date := none } 4,
     RateOp.activate 1]
    ⟨by unfold rateIdsNodup dbEx; decide, by unfold activeRateCount dbEx; decide⟩

/-! ### Row-lookup lemmas for balance updates -/

theorem get_user_key (db : DB) (uid : Nat) (u : User) (h : get_user db uid = some u) :
    u.id = uid := by
  unfold get_user at h
  have := List.find?_some h
  simpa using this

theorem find?_updateUserBalance_same (users : List User) (uid : Nat) (f : Rat → Rat) :
    (updateUserBalance users uid f).find? (fun u => u.id == uid)
      = (users.find? (fun u => u.id == uid)).map
          (fun u => { u with unit_balance := f u.unit_balance }) := by
  induction users with
  | nil => simp [updateUserBalance]
  | cons a t ih =>
    unfold updateUserBalance at ih ⊢
    simp only [List.map_cons, List.find?_cons]
    by_cases h : (a.id == uid) = true
    · rw [if_pos h]
      simp [h]
    · rw [if_neg h]
      have hb : (a.id == uid) = false := by simpa using h
      simp only [hb]
      exact ih

theorem find?_updateUserBalance_other (users : List User) (uid uid' : Nat) (f : Rat → Rat)
    (hne : uid' ≠ uid) :
    (updateUserBalance users uid f).find? (fun u => u.id == uid')
      = users.find? (fun u => u.id == uid') := by
  induction users with
  | nil => simp [updateUserBalance]
  | cons a t ih =>
    unfold updateUserBalance at ih ⊢
    simp only [List.map_cons, List.find?_cons]
    by_cases h : (a.id == uid) = true
    · rw [if_pos h]
      have ha : a.id = uid := by simpa using h
      have h2 : (a.id == uid') = false := by simp [ha]; omega
      simp only [h2]
      exact ih
    · rw [if_neg h]
      by_cases h2 : (a.id == uid') = true
      · simp only [h2]
      · have hb2 : (a.id == uid') = false := by simpa using h2
        simp only [hb2]
        exact ih

theorem find?_transactions_append_fresh (l : List Transaction) (t : Transaction)
    (hfresh : ∀ x ∈ l, x.id ≠ t.id) :
    (l ++ [t]).find? (fun x => x.id == t.id) = some t := by
  induction l with
  | nil => simp
  | cons a tl ih =>
    have ha : a.id ≠ t.id := hfresh a (by simp)
    rw [List.cons_append, List.find?_cons_of_neg _ (by simpa using ha)]
    exact ih (fun x hx => hfresh x (by simp [hx]))

theorem next_transaction_id_fresh (db : DB) (x : Transaction)
    (hx : x ∈ db.transactions) : x.id ≠ next_transaction_id db := by
  intro he
  apply next_transaction_id_not_mem db
  rw [← he]
  exact List.mem_map_of_mem _ hx

/-! ### Specification lemmas for the purchase paths -/

theorem buy_units_ok_spec (db : DB) (uid : Nat) (p : UnitPurchase) (now : Nat)
    (db' : DB) (t : Transaction) (h : buy_units db uid p now = .ok db' t) :
    ∃ user adm rate device_id,
      get_user db uid = some user ∧
      get_user db 3 = some adm ∧
      get_active_electricity_rate db = some rate ∧
      resolve_purchase_device db uid p.device_id = .ok device_id ∧
      t.amount = p.units * rate.price_per_unit ∧
      t.units_purchased = p.units ∧
      t.user_id = user.id ∧
      t.device_id = device_id ∧
      t.status = .completed ∧
      t.balance_before = user.unit_balance ∧
      t.balance_after = user.unit_balance - p.units * rate.price_per_unit ∧
      db'.users = updateUserBalance
        (updateUserBalance db.users 3 (fun b => b + p.units * rate.price_per_unit)) uid
        (fun b => b - p.units * rate.price_per_unit) ∧
      db'.rates = db.rates ∧
      db'.transactions = db.transactions ++ [t] := by
  unfold buy_units at h
  cases hu : get_user db uid with
  | none => rw [hu] at h; cases h
  | some user =>
  rw [hu] at h
  cases ha : get_user db 3 with
  | none => rw [ha] at h; cases h
  | some adm =>
  rw [ha] at h
  cases hr : get_active_electricity_rate db with
  | none => rw [hr] at h; cases h
  | some rate =>
  rw [hr] at h
  cases hd : resolve_purchase_device db uid p.device_id with
  | error e => rw [hd] at h; cases h
  | ok device_id =>
  rw [hd] at h
  simp only [PResult.ok.injEq] at h
  obtain ⟨hdb, ht⟩ := h
  subst hdb
  subst ht
  exact ⟨user, adm, rate, device_id, rfl, rfl, rfl, rfl, rfl, rfl, rfl, rfl, rfl, rfl,
    rfl, rfl, rfl, rfl⟩

theorem create_json_purchase_spec (db : DB) (uid : Nat) (jp : JsonPurchase) (now : Nat)
    (db1 : DB) (t : Transaction) (h : create_json_purchase db uid jp now = some (db1, t)) :
    ∃ user rate device_id,
      get_user db uid = some user ∧
      get_active_electricity_rate db = some rate ∧
      resolve_purchase_device db uid jp.device_id = .ok device_id ∧
      t.amount = jp.units * rate.price_per_unit ∧
      t.units_purchased = jp.units ∧
      t.user_id = uid ∧
      t.device_id = device_id ∧
      t.status = .pending ∧
      t.id = next_transaction_id db ∧
      t.balance_before = user.unit_balance ∧
      t.balance_after = user.unit_balance + jp.units ∧
      db1 = { db with transactions := db.transactions ++ [t] } := by
  unfold create_json_purchase at h
  cases hu : get_user db uid with
  | none => rw [hu] at h; cases h
  | some user =>
  rw [hu] at h
  cases hr : get_active_electricity_rate db with
  | none => rw [hr] at h; cases h
  | some rate =>
  rw [hr] at h
  cases hd : resolve_purchase_device db uid jp.device_id with
  | error e => rw [hd] at h; cases h
  | ok device_id =>
  rw [hd] at h
  simp only [Option.some.injEq, Prod.mk.injEq] at h
  obtain ⟨hdb, ht⟩ := h
  subst ht
  exact ⟨user, rate, device_id, rfl, rfl, rfl, rfl, rfl, rfl, rfl, rfl, rfl, rfl, rfl,
    hdb.symm⟩

theorem purchase_with_json_ok_spec (db : DB) (uid : Nat) (jp : JsonPurchase) (now : Nat)
    (db' : DB) (t : Transaction) (h : purchase_with_json db uid jp now = .ok db' t) :
    ∃ user adm rate db1 t0,
      get_user db uid = some user ∧
      get_user db 3 = some adm ∧
      get_active_electricity_rate db = some rate ∧
      create_json_purchase db uid jp now = some (db1, t0) ∧
      t = { t0 with status := .completed, completed_at := some now } ∧
      db'.users = updateUserBalance (updateUserBalance db1.users 3 (fun b => b + t0.amount))
        uid (fun b => b + jp.units) ∧
      db'.rates = db1.rates ∧
      db'.transactions = replaceTransaction db1.transactions t := by
  unfold purchase_with_json at h
  cases hu : get_user db uid with
  | none => rw [hu] at h; cases h
  | some user =>
  rw [hu] at h
  cases ha : get_user db 3 with
  | none => rw [ha] at h; cases h
  | some adm =>
  rw [ha] at h
  cases hr : get_active_electricity_rate db with
  | none => rw [hr] at h; cases h
  | some rate =>
  rw [hr] at h
  by_cases hdev :
      (if truthyStr jp.device_id = true then
        match get_device_by_id db (jp.device_id.getD "") with
        | some device => device.user_id == some uid
        | none => false
      else true) = true
  case neg => simp only [hdev, Bool.not_false, Bool.not_eq_true] at h ⊢; simp [hdev] at h
  simp only [hdev, Bool.not_true, Bool.false_eq_true, if_false] at h
  cases hc : create_json_purchase db uid jp now with
  | none => rw [hc] at h; cases h
  | some pr =>
  rw [hc] at h
  obtain ⟨db1, t0⟩ := pr
  simp only [PResult.ok.injEq] at h
  obtain ⟨hdb, ht⟩ := h
  subst hdb
  subst ht
  exact ⟨user, adm, rate, db1, t0, rfl, rfl, rfl, rfl, rfl, rfl, rfl, rfl⟩

theorem create_transaction_spec (db : DB) (uid rid : Nat) (units amount : Rat)
    (pm : String) (did : Option String) (notes : Option String) (now : Nat)
    (db1 : DB) (t : Transaction)
    (h : create_transaction db uid rid units amount pm did notes now = some (db1, t)) :
    ∃ user,
      get_user db uid = some user ∧
      db1 = { db with transactions := db.transactions ++ [t] } ∧
      t.id = next_transaction_id db ∧
      t.user_id = uid ∧
      t.amount = amount ∧
      t.units_purchased = units ∧
      t.status = .pending := by
  unfold create_transaction at h
  cases hu : get_user db uid with
  | none => rw [hu] at h; cases h
  | some user =>
  rw [hu] at h
  cases hd : resolve_purchase_device db uid did with
  | error e => rw [hd] at h; cases h
  | ok resolved_id =>
  rw [hd] at h
  simp only [Option.some.injEq, Prod.mk.injEq] at h
  obtain ⟨hdb, ht⟩ := h
  subst ht
  exact ⟨user, rfl, hdb.symm, rfl, rfl, rfl, rfl, rfl⟩

theorem update_transaction_status_spec (db : DB) (tid : Nat) (s : String) (now : Nat)
    (db' : DB) (t' : Transaction)
    (h : update_transaction_status db tid s now = some (db', t')) :
    ∃ tr ns, get_transaction db tid = some tr ∧ parseStatus s = some ns ∧
      t'.status = ns ∧
      t'.amount = tr.amount ∧
      t'.units_purchased = tr.units_purchased ∧
      t'.user_id = tr.user_id ∧
      t'.device_id = tr.device_id ∧
      db'.rates = db.rates ∧
      db'.transactions = replaceTransaction db.transactions t' ∧
      (db'.users = updateUserBalance db.users tr.user_id (fun b => b + tr.units_purchased)
        ∨ db'.users = db.users) := by
  simp only [update_transaction_status] at h
  cases ht : get_transaction db tid with
  | none => simp only [ht] at h; cases h
  | some tr =>
  simp only [ht] at h
  cases hs : parseStatus s with
  | none => simp only [hs] at h; cases h
  | some ns =>
  simp only [hs] at h
  by_cases hc : ns = TransactionStatus.completed
  · subst hc
    simp only [eq_self_iff_true, if_true] at h
    cases hu : get_user db tr.user_id with
    | none => simp only [hu] at h; cases h
    | some u =>
    simp only [hu] at h
    by_cases hts : truthyStr tr.device_id = true
    · simp only [hts, if_pos] at h
      cases hd : get_device_by_id db (tr.device_id.getD "") with
      | none =>
        simp only [hd] at h
        simp only [Option.some.injEq, Prod.mk.injEq] at h
        obtain ⟨hdb, ht'⟩ := h
        subst ht'
        exact ⟨tr, .completed, rfl, rfl, rfl, rfl, rfl, rfl, rfl, by rw [← hdb],
          by rw [← hdb], Or.inr (by rw [← hdb])⟩
      | some dev =>
        simp only [hd] at h
        simp only [Option.some.injEq, Prod.mk.injEq] at h
        obtain ⟨hdb, ht'⟩ := h
        subst ht'
        exact ⟨tr, .completed, rfl, rfl, rfl, rfl, rfl, rfl, rfl, by rw [← hdb],
          by rw [← hdb], Or.inl (by rw [← hdb])⟩
    · have htsf : truthyStr tr.device_id = false := by simpa using hts
      simp only [htsf, Bool.false_eq_true, if_false] at h
      simp only [Option.some.injEq, Prod.mk.injEq] at h
      obtain ⟨hdb, ht'⟩ := h
      subst ht'
      exact ⟨tr, .completed, rfl, rfl, rfl, rfl, rfl, rfl, rfl, by rw [← hdb],
        by rw [← hdb], Or.inl (by rw [← hdb])⟩
  · simp only [if_neg hc] at h
    simp only [Option.some.injEq, Prod.mk.injEq] at h
    obtain ⟨hdb, ht'⟩ := h
    subst ht'
    exact ⟨tr, ns, rfl, rfl, rfl, rfl, rfl, rfl, rfl, by rw [← hdb], by rw [← hdb],
      Or.inr (by rw [← hdb])⟩

theorem update_transaction_status_completed_ne_none (db : DB) (tid : Nat) (now : Nat)
    (tr : Transaction) (u : User) (ht : get_transaction db tid = some tr)
    (hu : get_user db tr.user_id = some u) :
    update_transaction_status db tid "completed" now ≠ none := by
  simp only [update_transaction_status, ht]
  have hp : parseStatus "completed" = some .completed := rfl
  simp only [hp, eq_self_iff_true, if_true, hu]
  by_cases hts : truthyStr tr.device_id = true
  · simp only [hts, if_true]
    cases hd : get_device_by_id db (tr.device_id.getD "") <;> simp [hd]
  · have htsf : truthyStr tr.device_id = false := by simpa using hts
    simp only [htsf, Bool.false_eq_true, if_false]
    simp

theorem buy_units_err_eq (db : DB) (uid : Nat) (p : UnitPurchase) (now : Nat)
    (db' : DB) (c : Nat) (m : String)
    (h : buy_units db uid p now = .err db' c m) : db' = db := by
  unfold buy_units at h
  cases hu : get_user db uid with
  | none =>
    rw [hu] at h
    simp only [PResult.err.injEq] at h
    exact h.1.symm
  | some user =>
  rw [hu] at h
  cases ha : get_user db 3 with
  | none =>
    rw [ha] at h
    simp only [PResult.err.injEq] at h
    exact h.1.symm
  | some adm =>
  rw [ha] at h
  cases hr : get_active_electricity_rate db with
  | none =>
    rw [hr] at h
    simp only [PResult.err.injEq] at h
    exact h.1.symm
  | some rate =>
  rw [hr] at h
  cases hd : resolve_purchase_device db uid p.device_id with
  | error e =>
    rw [hd] at h
    simp only [PResult.err.injEq] at h
    exact h.1.symm
  | ok device_id =>
  rw [hd] at h
  cases h

theorem buy_units_route_err_eq (db : DB) (uid : Nat) (p : UnitPurchase) (now : Nat)
    (db' : DB) (c : Nat) (m : String)
    (h : buy_units_route db uid p now = .err db' c m) : db' = db := by
  unfold buy_units_route at h
  by_cases hv : unitPurchaseValid p = true
  · rw [if_pos hv] at h
    exact buy_units_err_eq db uid p now db' c m h
  · rw [if_neg hv] at h
    simp only [PResult.err.injEq] at h
    exact h.1.symm

theorem purchase_with_json_err_eq (db : DB) (uid : Nat) (jp : JsonPurchase) (now : Nat)
    (db' : DB) (c : Nat) (m : String)
    (h : purchase_with_json db uid jp now = .err db' c m) : db' = db := by
  unfold purchase_with_json at h
  cases hu : get_user db uid with
  | none =>
    rw [hu] at h
    simp only [PResult.err.injEq] at h
    exact h.1.symm
  | some user =>
  rw [hu] at h
  cases ha : get_user db 3 with
  | none =>
    rw [ha] at h
    simp only [PResult.err.injEq] at h
    exact h.1.symm
  | some adm =>
  rw [ha] at h
  cases hr : get_active_electricity_rate db with
  | none =>
    rw [hr] at h
    simp only [PResult.err.injEq] at h
    exact h.1.symm
  | some rate =>
  rw [hr] at h
  by_cases hdev :
      (if truthyStr jp.device_id = true then
        match get_device_by_id db (jp.device_id.getD "") with
        | some device => device.user_id == some uid
        | none => false
      else true) = true
  · simp only [hdev, Bool.not_true, Bool.false_eq_true, if_false] at h
    cases hc : create_json_purchase db uid jp now with
    | none =>
      rw [hc] at h
      simp only [PResult.err.injEq] at h
      exact h.1.symm
    | some pr =>
      rw [hc] at h
      obtain ⟨db1, t0⟩ := pr
      cases h
  · simp only [hdev, Bool.not_false, if_true] at h
    simp only [PResult.err.injEq] at h
    exact h.1.symm

theorem purchase_with_json_route_err_eq (db : DB) (uid : Nat) (jp : JsonPurchase)
    (now : Nat) (db' : DB) (c : Nat) (m : String)
    (h : purchase_with_json_route db uid jp now = .err db' c m) : db' = db := by
  unfold purchase_with_json_route at h
  by_cases hv : jsonPurchaseValid jp = true
  · rw [if_pos hv] at h
    exact purchase_with_json_err_eq db uid jp now db' c m h
  · rw [if_neg hv] at h
    simp only [PResult.err.injEq] at h
    exact h.1.symm

theorem buy_electricity_internal_err_eq (db : DB) (did : String) (units : Rat)
    (pm : String) (notes : Option String) (now : Nat) (db' : DB) (c : Nat) (m : String)
    (h : buy_electricity_internal db did units pm notes now = .err db' c m) :
    db' = db := by
  simp only [buy_electricity_internal] at h
  cases hd : get_device_by_id db did with
  | none =>
    simp only [hd, PResult.err.injEq] at h
    exact h.1.symm
  | some device =>
  simp only [hd] at h
  cases huser : (match device.user_id with | some uid => get_user db uid | none => none) with
  | none =>
    simp only [huser, PResult.err.injEq] at h
    exact h.1.symm
  | some user =>
  simp only [huser] at h
  cases hr : get_active_electricity_rate db with
  | none =>
    simp only [hr, PResult.err.injEq] at h
    exact h.1.symm
  | some rate =>
  simp only [hr] at h
  cases hct : create_transaction db user.id rate.id units (units * rate.price_per_unit)
      pm (some did) notes now with
  | none =>
    simp only [hct, PResult.err.injEq] at h
    exact h.1.symm
  | some pr =>
  obtain ⟨db1, t⟩ := pr
  simp only [hct] at h
  obtain ⟨user2, hu2, hdb1, htid, htuid, _, _, _⟩ :=
    create_transaction_spec db user.id rate.id units (units * rate.price_per_unit)
      pm (some did) notes now db1 t hct
  have htr : get_transaction db1 t.id = some t := by
    rw [hdb1]
    unfold get_transaction
    exact find?_transactions_append_fresh db.transactions t
      (fun x hx => by rw [htid]; exact next_transaction_id_fresh db x hx)
  have hu1 : get_user db1 t.user_id = some user2 := by
    rw [hdb1, htuid]
    exact hu2
  have hne := update_transaction_status_completed_ne_none db1 t.id now t user2 htr hu1
  cases hupd : update_transaction_status db1 t.id "completed" now with
  | none => exact absurd hupd hne
  | some pr2 =>
    obtain ⟨db2, t2⟩ := pr2
    simp only [hupd] at h
    cases h

theorem buy_electricity_internal_ok_spec (db : DB) (did : String) (units : Rat)
    (pm : String) (notes : Option String) (now : Nat) (db' : DB) (t : Transaction)
    (h : buy_electricity_internal db did units pm notes now = .ok db' t) :
    ∃ device user rate db1 t0,
      get_device_by_id db did = some device ∧
      (match device.user_id with | some uid => get_user db uid | none => none)
        = some user ∧
      get_active_electricity_rate db = some rate ∧
      create_transaction db user.id rate.id units (units * rate.price_per_unit) pm
        (some did) notes now = some (db1, t0) ∧
      update_transaction_status db1 t0.id "completed" now = some (db', t) := by
  simp only [buy_electricity_internal] at h
  cases hd : get_device_by_id db did with
  | none => simp only [hd] at h; cases h
  | some device =>
  simp only [hd] at h
  cases huser : (match device.user_id with | some uid => get_user db uid | none => none) with
  | none => simp only [huser] at h; cases h
  | some user =>
  simp only [huser] at h
  cases hr : get_active_electricity_rate db with
  | none => simp only [hr] at h; cases h
  | some rate =>
  simp only [hr] at h
  cases hct : create_transaction db user.id rate.id units (units * rate.price_per_unit)
      pm (some did) notes now with
  | none => simp only [hct] at h; cases h
  | some pr =>
  obtain ⟨db1, t0⟩ := pr
  simp only [hct] at h
  cases hupd : update_transaction_status db1 t0.id "completed" now with
  | none => simp only [hupd] at h; cases h
  | some pr2 =>
  obtain ⟨db2, t2⟩ := pr2
  simp only [hupd, PResult.ok.injEq] at h
  obtain ⟨hdb, ht⟩ := h
  subst hdb
  subst ht
  exact ⟨device, user, rate, db1, t0, rfl, huser, rfl, hct, hupd⟩

/-- **C3**: a rejected purchase request (user not found, treasury account
missing, no active rate, device not found or not owned by the user, or
validation failure) leaves all balances and the transaction table exactly as
they were: every error outcome on each of the three purchase paths carries
back the unmodified store. -/
theorem rejected_purchase_leaves_state_unchanged (db db' : DB) (user_id : Nat)
    (up : UnitPurchase) (jp : JsonPurchase) (wdevice : String) (wunits : Rat)
    (wpm : String) (wnotes : Option String) (now code : Nat) (detail : String) :
    (buy_units_route db user_id up now = .err db' code detail → db' = db) ∧
    (purchase_with_json_route db user_id jp now = .err db' code detail → db' = db) ∧
    (buy_electricity_internal db wdevice wunits wpm wnotes now = .err db' code detail →
      db' = db) :=
  ⟨fun h => buy_units_route_err_eq db user_id up now db' code detail h,
   fun h => purchase_with_json_route_err_eq db user_id jp now db' code detail h,
   fun h => buy_electricity_internal_err_eq db wdevice wunits wpm wnotes now db'
     code detail h⟩

/-- Witness for C3: on the empty store every path rejects, and the rejection
carries back the empty store. -/
theorem rejected_purchase_leaves_state_unchanged_witness :
    (buy_units_route dbNoUsers 1 upEx 0 = PResult.err dbNoUsers 404 "User not found") ∧
    (dbNoUsers = dbNoUsers) ∧
    (purchase_with_json_route dbNoUsers 1 jpEx 0
      = PResult.err dbNoUsers 404 "User not found") ∧
    (dbNoUsers = dbNoUsers) ∧
    (buy_electricity_internal dbNoUsers "MTR0000001" 5 "WhatsApp" none 0
      = PResult.err dbNoUsers 404 "Device not found") ∧
    (dbNoUsers = dbNoUsers) :=
  ⟨rfl,
   (rejected_purchase_leaves_state_unchanged dbNoUsers dbNoUsers 1 upEx jpEx
     "MTR0000001" 5 "WhatsApp" none 0 404 "User not found").1 rfl,
   rfl,
   (rejected_purchase_leaves_state_unchanged dbNoUsers dbNoUsers 1 upEx jpEx
     "MTR0000001" 5 "WhatsApp" none 0 404 "User not found").2.1 rfl,
   rfl,
   (rejected_purchase_leaves_state_unchanged dbNoUsers dbNoUsers 1 upEx jpEx
     "MTR0000001" 5 "WhatsApp" none 0 404 "Device not found").2.2 rfl⟩

/-- **C7**: on every purchase path, the committed transaction's `amount` is
exactly `units * price_per_unit` of the rate that is active at the time of
the purchase, and its `units_purchased` is the requested `units`. -/
theorem purchase_amount_equals_units_times_rate (db db' : DB) (user_id : Nat)
    (up : UnitPurchase) (jp : JsonPurchase) (wdevice : String) (wunits : Rat)
    (wpm : String) (wnotes : Option String) (now : Nat) (t : Transaction) :
    (buy_units_route db user_id up now = .ok db' t →
      ∃ rate, get_active_electricity_rate db = some rate ∧
        t.units_purchased = up.units ∧ t.amount = up.units * rate.price_per_unit) ∧
    (purchase_with_json_route db user_id jp now = .ok db' t →
      ∃ rate, get_active_electricity_rate db = some rate ∧
        t.units_purchased = jp.units ∧ t.amount = jp.units * rate.price_per_unit) ∧
    (buy_electricity_internal db wdevice wunits wpm wnotes now = .ok db' t →
      ∃ rate, get_active_electricity_rate db = some rate ∧
        t.units_purchased = wunits ∧ t.amount = wunits * rate.price_per_unit) := by
  refine ⟨fun h => ?_, fun h => ?_, fun h => ?_⟩
  · unfold buy_units_route at h
    by_cases hv : unitPurchaseValid up = true
    · rw [if_pos hv] at h
      obtain ⟨user, adm, rate, device_id, _, _, hr, _, ham, hun, _⟩ :=
        buy_units_ok_spec db user_id up now db' t h
      exact ⟨rate, hr, hun, ham⟩
    · rw [if_neg hv] at h
      cases h
  · unfold purchase_with_json_route at h
    by_cases hv : jsonPurchaseValid jp = true
    · rw [if_pos hv] at h
      obtain ⟨user, adm, rate, db1, t0, _, _, hr, hc, ht, _⟩ :=
        purchase_with_json_ok_spec db user_id jp now db' t h
      obtain ⟨user2, rate2, device_id, _, hr2, _, ham, hun, _⟩ :=
        create_json_purchase_spec db user_id jp now db1 t0 hc
      have hrr : rate2 = rate := by
        rw [hr] at hr2
        exact ((Option.some.injEq _ _).mp hr2).symm
      subst ht
      exact ⟨rate, hr, hun, by rw [← hrr]; exact ham⟩
    · rw [if_neg hv] at h
      cases h
  · obtain ⟨device, user, rate, db1, t0, hd, huser, hr, hct, hupd⟩ :=
      buy_electricity_internal_ok_spec db wdevice wunits wpm wnotes now db' t h
    obtain ⟨user2, hu2, hdb1, htid, htuid, ham, hun, _⟩ :=
      create_transaction_spec db user.id rate.id wunits (wunits * rate.price_per_unit)
        wpm (some wdevice) wnotes now db1 t0 hct
    have htr : get_transaction db1 t0.id = some t0 := by
      rw [hdb1]
      unfold get_transaction
      exact find?_transactions_append_fresh db.transactions t0
        (fun x hx => by rw [htid]; exact next_transaction_id_fresh db x hx)
    obtain ⟨tr, ns, htr2, _, _, hamt, hunits, _, _, _, _, _⟩ :=
      update_transaction_status_spec db1 t0.id "completed" now db' t hupd
    have htt : tr = t0 := by
      rw [htr] at htr2
      exact ((Option.some.injEq _ _).mp htr2).symm
    subst htt
    exact ⟨rate, hr, by rw [hunits, hun], by rw [hamt, ham]⟩

/-- Witness for C7: the three concrete purchases of 5 units on `dbEx`. -/
theorem purchase_amount_equals_units_times_rate_witness :
    (∃ rate, get_active_electricity_rate dbEx = some rate ∧
      (presultTxn (buy_units_route dbEx 1 upEx 7)).units_purchased = upEx.units ∧
      (presultTxn (buy_units_route dbEx 1 upEx 7)).amount
        = upEx.units * rate.price_per_unit) ∧
    (∃ rate, get_active_electricity_rate dbEx = some rate ∧
      (presultTxn (purchase_with_json_route dbEx 1 jpEx 7)).units_purchased = jpEx.units ∧
      (presultTxn (purchase_with_json_route dbEx 1 jpEx 7)).amount
        = jpEx.units * rate.price_per_unit) ∧
    (∃ rate, get_active_electricity_rate dbEx = some rate ∧
      (presultTxn whatsAppResultEx).units_purchased = (5 : Rat) ∧
      (presultTxn whatsAppResultEx).amount = (5 : Rat) * rate.price_per_unit) :=
  ⟨(purchase_amount_equals_units_times_rate dbEx
      (presultDB (buy_units_route dbEx 1 upEx 7)) 1 upEx jpEx "MTR0000001" 5 "WhatsApp"
      none 7 (presultTxn (buy_units_route dbEx 1 upEx 7))).1 rfl,
   (purchase_amount_equals_units_times_rate dbEx
      (presultDB (purchase_with_json_route dbEx 1 jpEx 7)) 1 upEx jpEx "MTR0000001" 5
      "WhatsApp" none 7 (presultTxn (purchase_with_json_route dbEx 1 jpEx 7))).2.1 rfl,
   (purchase_amount_equals_units_times_rate dbEx (presultDB whatsAppResultEx) 1 upEx jpEx
      "MTR0000001" 5 "WhatsApp" none 7 (presultTxn whatsAppResultEx)).2.2 rfl⟩

/-- **C9**: from the same initial store, the two purchase endpoints move the
user's balance field in opposite directions: POST /users/buy-units leaves it
at `B - units * price` (debited as money), POST /users/purchase-json leaves
it at `B + units` (credited as units), and for positive units and price those
two values always differ. -/
theorem purchase_paths_disagree_on_user_balance (db db1 db2 : DB) (uid : Nat)
    (up : UnitPurchase) (jp : JsonPurchase) (now : Nat) (t1 t2 : Transaction)
    (user : User) (rate : ElectricityRate)
    (hu : get_user db uid = some user)
    (hr : get_active_electricity_rate db = some rate)
    (hne : uid ≠ 3)
    (hju : jp.units = up.units)
    (h1 : buy_units_route db uid up now = .ok db1 t1)
    (h2 : purchase_with_json_route db uid jp now = .ok db2 t2) :
    userBalance db1 uid = some (user.unit_balance - up.units * rate.price_per_unit) ∧
    userBalance db2 uid = some (user.unit_balance + up.units) ∧
    (0 < up.units → 0 < rate.price_per_unit →
      user.unit_balance - up.units * rate.price_per_unit
        ≠ user.unit_balance + up.units) := by
  refine ⟨?_, ?_, ?_⟩
  · unfold buy_units_route at h1
    by_cases hv : unitPurchaseValid up = true
    case neg => rw [if_neg hv] at h1; cases h1
    rw [if_pos hv] at h1
    obtain ⟨user1, adm, rate1, device_id, hu1, ha, hr1, _, _, _, _, _, _, _, _,
      husers, _, _⟩ := buy_units_ok_spec db uid up now db1 t1 h1
    have huu : user1 = user := by
      rw [hu] at hu1
      exact ((Option.some.injEq _ _).mp hu1).symm
    have hrr : rate1 = rate := by
      rw [hr] at hr1
      exact ((Option.some.injEq _ _).mp hr1).symm
    subst huu
    subst hrr
    unfold userBalance get_user
    rw [husers, find?_updateUserBalance_same, find?_updateUserBalance_other _ 3 uid _ hne]
    rw [show db.users.find? (fun u => u.id == uid) = some user1 from hu]
    rfl
  · unfold purchase_with_json_route at h2
    by_cases hv : jsonPurchaseValid jp = true
    case neg => rw [if_neg hv] at h2; cases h2
    rw [if_pos hv] at h2
    obtain ⟨user1, adm, rate1, db0, t0, hu1, ha, hr1, hc, ht, husers, _, _⟩ :=
      purchase_with_json_ok_spec db uid jp now db2 t2 h2
    obtain ⟨user2, rate2, device_id, _, _, _, _, _, _, _, _, _, _, _, hdb0⟩ :=
      create_json_purchase_spec db uid jp now db0 t0 hc
    have huu : user1 = user := by
      rw [hu] at hu1
      exact ((Option.some.injEq _ _).mp hu1).symm
    subst huu
    rw [hdb0] at husers
    unfold userBalance get_user
    rw [husers, find?_updateUserBalance_same, find?_updateUserBalance_other _ 3 uid _ hne]
    rw [show db.users.find? (fun u => u.id == uid) = some user1 from hu]
    simp [hju]
  · intro hupos hppos heq
    have hx := mul_pos hupos hppos
    have : up.units * rate.price_per_unit + up.units = 0 := by linarith
    linarith

/-- Witness for C9: the two concrete purchases of 5 units on `dbEx`; user 1's
balance ends at 0 on buy-units and at 55 on purchase-json. -/
theorem purchase_paths_disagree_on_user_balance_witness :
    userBalance (presultDB (buy_units_route dbEx 1 upEx 7)) 1
      = some (userEx.unit_balance - upEx.units * rateEx.price_per_unit) ∧
    userBalance (presultDB (purchase_with_json_route dbEx 1 jpEx 7)) 1
      = some (userEx.unit_balance + upEx.units) ∧
    userEx.unit_balance - upEx.units * rateEx.price_per_unit
      ≠ userEx.unit_balance + upEx.units := by
  have h := purchase_paths_disagree_on_user_balance dbEx
    (presultDB (buy_units_route dbEx 1 upEx 7))
    (presultDB (purchase_with_json_route dbEx 1 jpEx 7)) 1 upEx jpEx 7
    (presultTxn (buy_units_route dbEx 1 upEx 7))
    (presultTxn (purchase_with_json_route dbEx 1 jpEx 7)) userEx rateEx rfl rfl
    (by decide) rfl rfl rfl
  exact ⟨h.1, h.2.1,
    h.2.2 (by unfold upEx; norm_num) (by unfold rateEx; norm_num)⟩

/-- **C1 (amended)**: on the two router purchase paths (buy-units and
purchase-json) a completed purchase credits the treasury account (user 3) by
exactly the transaction's amount; on the WhatsApp path, which completes via
`update_transaction_status`, the treasury balance is not credited at all
(unchanged whenever the purchasing user is not user 3 itself). -/
theorem treasury_credited_only_on_router_paths (db db' : DB) (uid : Nat)
    (up : UnitPurchase) (jp : JsonPurchase) (wdevice : String) (wunits : Rat)
    (wpm : String) (wnotes : Option String) (now : Nat) (t : Transaction) :
    (uid ≠ 3 → buy_units_route db uid up now = .ok db' t →
      ∃ b, userBalance db 3 = some b ∧ userBalance db' 3 = some (b + t.amount)) ∧
    (uid ≠ 3 → purchase_with_json_route db uid jp now = .ok db' t →
      ∃ b, userBalance db 3 = some b ∧ userBalance db' 3 = some (b + t.amount)) ∧
    (buy_electricity_internal db wdevice wunits wpm wnotes now = .ok db' t →
      t.user_id ≠ 3 → userBalance db' 3 = userBalance db 3) := by
  refine ⟨fun hne h => ?_, fun hne h => ?_, fun h hne => ?_⟩
  · unfold buy_units_route at h
    by_cases hv : unitPurchaseValid up = true
    case neg => rw [if_neg hv] at h; cases h
    rw [if_pos hv] at h
    obtain ⟨user, adm, rate, device_id, hu, ha, hr, _, ham, _, _, _, _, _, _,
      husers, _, _⟩ := buy_units_ok_spec db uid up now db' t h
    refine ⟨adm.unit_balance, ?_, ?_⟩
    · unfold userBalance get_user
      rw [show db.users.find? (fun u => u.id == 3) = some adm from ha]
      rfl
    · unfold userBalance get_user
      rw [husers, find?_updateUserBalance_other _ uid 3 _ (fun hx => hne hx.symm),
        find?_updateUserBalance_same]
      rw [show db.users.find? (fun u => u.id == 3) = some adm from ha]
      rw [ham]
      rfl
  · unfold purchase_with_json_route at h
    by_cases hv : jsonPurchaseValid jp = true
    case neg => rw [if_neg hv] at h; cases h
    rw [if_pos hv] at h
    obtain ⟨user, adm, rate, db0, t0, hu, ha, hr, hc, ht, husers, _, _⟩ :=
      purchase_with_json_ok_spec db uid jp now db' t h
    obtain ⟨user2, rate2, device_id, _, _, _, _, _, _, _, _, _, _, _, hdb0⟩ :=
      create_json_purchase_spec db uid jp now db0 t0 hc
    rw [hdb0] at husers
    refine ⟨adm.unit_balance, ?_, ?_⟩
    · unfold userBalance get_user
      rw [show db.users.find? (fun u => u.id == 3) = some adm from ha]
      rfl
    · unfold userBalance get_user
      rw [husers, find?_updateUserBalance_other _ uid 3 _ (fun hx => hne hx.symm),
        find?_updateUserBalance_same]
      rw [show db.users.find? (fun u => u.id == 3) = some adm from ha]
      rw [ht]
      rfl
  · obtain ⟨device, user, rate, db1, t0, hd, huser, hr, hct, hupd⟩ :=
      buy_electricity_internal_ok_spec db wdevice wunits wpm wnotes now db' t h
    obtain ⟨user2, hu2, hdb1, htid, htuid, _, _, _⟩ :=
      create_transaction_spec db user.id rate.id wunits (wunits * rate.price_per_unit)
        wpm (some wdevice) wnotes now db1 t0 hct
    obtain ⟨tr, ns, htr2, _, _, _, _, htuid2, _, _, _, husers⟩ :=
      update_transaction_status_spec db1 t0.id "completed" now db' t hupd
    have hne3 : (3 : Nat) ≠ tr.user_id := fun hx => hne (by rw [htuid2, ← hx])
    cases husers with
    | inl hupdated =>
      unfold userBalance get_user
      rw [hupdated, find?_updateUserBalance_other _ tr.user_id 3 _ hne3, hdb1]
    | inr hsame =>
      unfold userBalance get_user
      rw [hsame, hdb1]

/-- Counterexample to C1 as stated: the WhatsApp purchase of 5 units
completes with amount 50, yet the treasury balance (user 3) is unchanged at
100. -/
theorem whatsapp_purchase_not_credited_to_treasury :
    presultIsOk whatsAppResultEx = true ∧
    presultStatus whatsAppResultEx = some .completed ∧
    presultAmount whatsAppResultEx = some (5 * rateEx.price_per_unit) ∧
    ((5 : Rat) * rateEx.price_per_unit = 50) ∧
    userBalance dbEx 3 = some 100 ∧
    userBalance (presultDB whatsAppResultEx) 3 = some 100 :=
  ⟨rfl, rfl, rfl, by unfold rateEx; norm_num, rfl, rfl⟩

/-- Witness for C1 (amended): on `dbEx`, buy-units and purchase-json move the
treasury from 100 to 100 + amount, while the WhatsApp path leaves it at 100. -/
theorem treasury_credited_only_on_router_paths_witness :
    (∃ b, userBalance dbEx 3 = some b ∧
      userBalance (presultDB (buy_units_route dbEx 1 upEx 7)) 3
        = some (b + (presultTxn (buy_units_route dbEx 1 upEx 7)).amount)) ∧
    (∃ b, userBalance dbEx 3 = some b ∧
      userBalance (presultDB (purchase_with_json_route dbEx 1 jpEx 7)) 3
        = some (b + (presultTxn (purchase_with_json_route dbEx 1 jpEx 7)).amount)) ∧
    userBalance (presultDB whatsAppResultEx) 3 = userBalance dbEx 3 := by
  have h := treasury_credited_only_on_router_paths dbEx
    (presultDB (buy_units_route dbEx 1 upEx 7)) 1 upEx jpEx "MTR0000001" 5 "WhatsApp"
    none 7 (presultTxn (buy_units_route dbEx 1 upEx 7))
  have h2 := treasury_credited_only_on_router_paths dbEx
    (presultDB (purchase_with_json_route dbEx 1 jpEx 7)) 1 upEx jpEx "MTR0000001" 5
    "WhatsApp" none 7 (presultTxn (purchase_with_json_route dbEx 1 jpEx 7))
  have h3 := treasury_credited_only_on_router_paths dbEx
    (presultDB whatsAppResultEx) 1 upEx jpEx "MTR0000001" 5 "WhatsApp" none 7
    (presultTxn whatsAppResultEx)
  exact ⟨h.1 (by decide) rfl, h2.2.1 (by decide) rfl, h3.2.2 rfl (by decide)⟩

/-- **C2 (code bug)**: calling `update_transaction_status` with `completed` on
the already-completed transaction of `dbCompleted` applies the credits a
second time: user 1's balance moves 50 → 55 and the device's balance
10 → 15, instead of being a no-op. -/
theorem double_completion_reapplies_credits :
    (get_transaction dbCompleted 1).map (fun t => t.status) = some .completed ∧
    userBalance dbCompleted 1 = some 50 ∧
    deviceBalance dbCompleted "MTR0000001" = some 10 ∧
    (update_transaction_status dbCompleted 1 "completed" 9).map
      (fun p => userBalance p.1 1) = some (some (50 + 5)) ∧
    (update_transaction_status dbCompleted 1 "completed" 9).map
      (fun p => deviceBalance p.1 "MTR0000001") = some (some (10 + 5)) ∧
    ((50 : Rat) + 5 = 55) ∧ ((10 : Rat) + 5 = 15) :=
  ⟨rfl, rfl, rfl, rfl, rfl, by norm_num, by norm_num⟩

/-- Counterexample to C4 as stated: `update_transaction_status` moves the
completed transaction of `dbCompleted` back to `pending`. -/
theorem completed_transaction_reverted_to_pending :
    (get_transaction dbCompleted 1).map (fun t => t.status) = some .completed ∧
    update_transaction_status dbCompleted 1 "pending" 9
      = some (dbPendingEx, txnPendingEx) ∧
    txnPendingEx.status = .pending :=
  ⟨rfl, rfl, rfl⟩

/-- **C4 (amended)**: `update_transaction_status` overwrites the stored status
with whatever valid status is requested, regardless of the current status —
`completed` and `failed` are not protected terminal states on this path (the
purchase flows themselves only ever move `pending` to `completed`). -/
theorem update_transaction_status_overwrites_status (db : DB) (tid : Nat) (s : String)
    (now : Nat) (db' : DB) (t' : Transaction) (ns : TransactionStatus)
    (h : update_transaction_status db tid s now = some (db', t'))
    (hs : parseStatus s = some ns) : t'.status = ns := by
  obtain ⟨tr, ns2, _, hs2, hst, _⟩ := update_transaction_status_spec db tid s now db' t' h
  rw [hs] at hs2
  rw [hst]
  exact ((Option.some.injEq _ _).mp hs2).symm

/-- Witness for C4 (amended): the completed transaction set back to `pending`. -/
theorem update_transaction_status_overwrites_status_witness :
    txnPendingEx.status = TransactionStatus.pending :=
  update_transaction_status_overwrites_status dbCompleted 1 "pending" 9 dbPendingEx
    txnPendingEx .pending rfl rfl

/-- **C8 (code bug)**: the schema-validated router paths reject `units = 0`
before any mutation, but the WhatsApp buy-electricity path has no units
validation: with `units = 0` it creates (and completes) a transaction. -/
theorem whatsapp_zero_units_creates_transaction :
    buy_units_route dbEx 1
      { units := 0, payment_method := "direct_transfer", device_id := none,
        notes := none } 7 = PResult.err dbEx 422 "units must be greater than 0" ∧
    purchase_with_json_route dbEx 1 { units := 0, device_id := none, notes := none } 7
      = PResult.err dbEx 422 "units must be greater than 0" ∧
    dbEx.transactions.length = 0 ∧
    presultIsOk whatsAppZeroResultEx = true ∧
    presultStatus whatsAppZeroResultEx = some .completed ∧
    presultUnits whatsAppZeroResultEx = some 0 ∧
    (presultDB whatsAppZeroResultEx).transactions.length = 1 :=
  ⟨rfl, rfl, rfl, rfl, rfl, rfl, rfl⟩

/-- **C10**: for every existing user, GET /users/device/{user_id} never
returns a device: the handler reads `user.device_id`, which the `User` model
does not define, so it always fails with an `AttributeError` and its success
branch is unreachable. -/
theorem get_device_status_always_attribute_error (db : DB) (uid : Nat) (u : User)
    (h : get_user db uid = some u) :
    get_device_status db uid = .attributeError "device_id" := by
  have hattr : userGetAttr u "device_id" = none := rfl
  simp only [get_device_status, h, hattr]

/-- Witness for C10: the concrete store's user 1. -/
theorem get_device_status_always_attribute_error_witness :
    get_device_status dbEx 1 = DeviceStatusResult.attributeError "device_id" :=
  get_device_status_always_attribute_error dbEx 1 userEx rfl

end Backend
